import Mathlib

/-!
Verification of the GitHub node adapter (packages/nodes-base/nodes/Github/Github.node.ts).

The development shallowly embeds the `Github.execute` routine: JSON-like values,
the per-item operation router, the response reshaper, and (modelled from the
specification, since GenericFunctions.ts is not among the sources) the HTTP
request helper, the pagination helper and the file-SHA lookup.  Network traffic
is represented by an oracle `Request → Except String JVal`, and every function
additionally returns the list of HTTP requests it issued, in order.
-/

namespace GithubNode

/-- JSON-like runtime values (the IDataObject universe of the host platform),
plus the JavaScript undefined value which the source checks for explicitly. -/
inductive JVal where
  | null : JVal
  | undef : JVal
  | bool : Bool → JVal
  | num : Int → JVal
  | str : String → JVal
  | arr : List JVal → JVal
  | obj : List (String × JVal) → JVal
deriving Repr, Inhabited

/-- First-match lookup of a key in an object represented as an association list
(JavaScript property read on the objects built by the node). -/
def lookupKey {α : Type} (o : List (String × α)) (k : String) : Option α :=
  match o with
  | [] => none
  | (k2, v) :: rest => if k2 = k then some v else lookupKey rest k

/-- JavaScript property read `o[k]`: an absent key reads as undefined. -/
def jget (o : List (String × JVal)) (k : String) : JVal :=
  (lookupKey o k).getD JVal.undef

/-- JavaScript property read on an arbitrary value: only objects have keys;
reading a property of a non-object primitive gives undefined. -/
def jgetV (v : JVal) (k : String) : JVal :=
  match v with
  | JVal.obj fields => jget fields k
  | _ => JVal.undef

/-- JavaScript property write `o[k] = v`: replaces the first binding of `k`
in place (JavaScript keeps the key position on update), appends otherwise. -/
def setKey {α : Type} (o : List (String × α)) (k : String) (v : α) : List (String × α) :=
  match o with
  | [] => [(k, v)]
  | (k2, w) :: rest => if k2 = k then (k2, v) :: rest else (k2, w) :: setKey rest k v

/-- JavaScript truthiness, used by the `if (additionalParameters.author)` style
guards of the source. -/
def truthy : JVal → Bool
  | JVal.null => false
  | JVal.undef => false
  | JVal.bool b => b
  | JVal.num n => n != 0
  | JVal.str s => !s.isEmpty
  | JVal.arr _ => true
  | JVal.obj _ => true

/-- UTF-8 encoding of a single character as a list of byte values, used to
model Buffer.from(string) and encodeURI byte-wise. -/
def utf8Bytes (c : Char) : List Nat :=
  let n := c.toNat
  if n < 128 then [n]
  else if n < 2048 then [192 + n / 64, 128 + n % 64]
  else if n < 65536 then [224 + n / 4096, 128 + n / 64 % 64, 128 + n % 64]
  else [240 + n / 262144, 128 + n / 4096 % 64, 128 + n / 64 % 64, 128 + n % 64]

/-- The UTF-8 bytes of a string (Buffer.from(s) in the source). -/
def strBytes (s : String) : List Nat :=
  s.data.flatMap utf8Bytes

/-- The base64 alphabet. -/
def base64Chars : List Char :=
  "ABCDEFGHIJKLMNOPQRSTUVWXYZabcdefghijklmnopqrstuvwxyz0123456789+/".toList

/-- The base64 character of a sextet. -/
def encChar (n : Nat) : Char :=
  base64Chars.getD n '='

/-- Position of a character in a character list. -/
def findIdx (c : Char) : List Char → Option Nat
  | [] => none
  | d :: rest => if d = c then some 0 else (findIdx c rest).map (· + 1)

/-- The sextet of a base64 character; none for padding and foreign characters
(Buffer.from(s, base64) skips those). -/
def decChar (c : Char) : Option Nat :=
  findIdx c base64Chars

/-- Base64-encode a byte list, three bytes to four characters, padded. -/
def base64EncodeBytes : List Nat → List Char
  | [] => []
  | [a] => [encChar (a / 4), encChar (a % 4 * 16), '=', '=']
  | [a, b] => [encChar (a / 4), encChar (a % 4 * 16 + b / 16), encChar (b % 16 * 4), '=']
  | a :: b :: c :: rest =>
      encChar (a / 4) :: encChar (a % 4 * 16 + b / 16) :: encChar (b % 16 * 4 + c / 64) ::
        encChar (c % 64) :: base64EncodeBytes rest

/-- Buffer.prototype.toString(base64): base64 encoding of a byte list. -/
def base64Encode (bs : List Nat) : String :=
  String.mk (base64EncodeBytes bs)

/-- Regroup decoded sextets into bytes, four sextets to three bytes, with the
usual forgiving treatment of a short trailing group. -/
def base64DecodeSextets : List Nat → List Nat
  | a :: b :: c :: d :: rest =>
      (a * 4 + b / 16) :: (b % 16 * 16 + c / 4) :: (c % 4 * 64 + d) ::
        base64DecodeSextets rest
  | [a, b] => [a * 4 + b / 16]
  | [a, b, c] => [a * 4 + b / 16, b % 16 * 16 + c / 4]
  | _ => []

/-- Buffer.from(s, base64): decode, skipping padding and foreign characters. -/
def base64Decode (s : String) : List Nat :=
  base64DecodeSextets (s.data.filterMap decChar)

/-- The ASCII characters that JavaScript encodeURI leaves unescaped (the
unreserved and reserved URI sets and the number sign). -/
def uriUnescapedChars : List Char :=
  "ABCDEFGHIJKLMNOPQRSTUVWXYZabcdefghijklmnopqrstuvwxyz0123456789;,/?:@&=+$-_.!~*()#".toList
    ++ [Char.ofNat 39]

/-- Upper-case hexadecimal digit. -/
def hexDigit (n : Nat) : Char :=
  "0123456789ABCDEF".toList.getD n '0'

/-- Percent-encoding of one byte. -/
def percentEncodeByte (b : Nat) : List Char :=
  ['%', hexDigit (b / 16), hexDigit (b % 16)]

/-- encodeURI on one UTF-8 byte. -/
def encodeURIByte (b : Nat) : List Char :=
  if b < 128 && uriUnescapedChars.contains (Char.ofNat b) then [Char.ofNat b]
  else percentEncodeByte b

/-- JavaScript encodeURI, applied by the source to the filePath parameter:
percent-encodes the UTF-8 bytes outside the unreserved/reserved sets and
leaves the reserved URI characters alone. -/
def encodeURI (s : String) : String :=
  String.mk ((strBytes s).flatMap encodeURIByte)

/-- Modelled from the change-case library dependency, for the camelCase
identifiers this node feeds it (the review event names): every upper-case
character becomes an underscore followed by its lower-case form. -/
def snakeCase (s : String) : String :=
  String.mk (s.data.flatMap (fun c => if c.isUpper then ['_', c.toLower] else [c]))

/-- String.prototype.toUpperCase for the ASCII event identifiers fed to it:
character-wise upper-casing. -/
def toUpperStr (s : String) : String :=
  String.mk (s.data.map Char.toUpper)

/-- One HTTP request as handed to the request helpers: method, endpoint,
JSON body and query-string object. -/
structure Request where
  method : String
  endpoint : String
  body : List (String × JVal)
  qs : List (String × JVal)
deriving Repr

/-- A named binary attachment of an item; the host platform stores the payload
base64-encoded (see the comment at line 1894 of the source). -/
structure BinaryFile where
  data : String
  fileName : JVal
deriving Repr

/-- An input/output item of the host platform: a JSON payload and an optional
mapping of named binary attachments. -/
structure Item where
  json : JVal
  binary : Option (List (String × BinaryFile))
deriving Repr

/-- Modelled from the spec (excluded collaborator, §1): the host helper
this.helpers.prepareBinaryData wraps raw bytes as a named attachment,
stored base64-encoded as the platform does. -/
def prepareBinaryData (bytes : List Nat) (fileName : JVal) : BinaryFile :=
  { data := base64Encode bytes, fileName := fileName }

/-- The getNodeParameter accessor: each named parameter of the node, as a
function of the item index it is read at. -/
structure ParamSource where
  resource : Nat → String
  operation : Nat → String
  owner : Nat → String
  repository : Nat → String
  filePath : Nat → String
  commitMessage : Nat → String
  binaryData : Nat → Bool
  binaryPropertyName : Nat → String
  fileContent : Nat → String
  additionalParameters : Nat → List (String × JVal)
  title : Nat → String
  bodyText : Nat → String
  labels : Nat → List (List (String × JVal))
  assignees : Nat → List (List (String × JVal))
  issueNumber : Nat → String
  lockReason : Nat → String
  editFields : Nat → List (String × JVal)
  releaseTag : Nat → String
  release_id : Nat → String
  additionalFields : Nat → List (String × JVal)
  getRepositoryIssuesFilters : Nat → List (String × JVal)
  reviewId : Nat → String
  pullRequestNumber : Nat → String
  event : Nat → String
  organization : Nat → String
  email : Nat → String
  returnAll : Nat → Bool
  limit : Nat → Int
  asBinaryProperty : Nat → Bool

/-- The run environment: the parameters, the continue-on-failure mode of the
host, the network oracle, and a fuel bound for the pagination loop. -/
structure Env where
  params : ParamSource
  continueOnFail : Bool
  net : Request → Except String JVal
  pageFuel : Nat

/-- Modelled from the spec (§1, §6): GenericFunctions.githubApiRequest is not
among the sources; per the spec it performs exactly one HTTP round trip with
the given method, endpoint, body and query.  We record the request and consult
the network oracle. -/
def githubApiRequest (net : Request → Except String JVal) (method endpoint : String)
    (body qs : List (String × JVal)) : List Request × Except String JVal :=
  ([⟨method, endpoint, body, qs⟩], net ⟨method, endpoint, body, qs⟩)

/-- Modelled from the spec (§4.3): the pagination loop of
GenericFunctions.githubApiRequestAllItems, which is not among the sources.
It reissues the identical request with per_page 100 and an advancing page
number, concatenating each page in order, until a short page signals the end.
The fuel argument bounds the number of rounds. -/
def githubApiRequestAllItemsLoop (net : Request → Except String JVal)
    (method endpoint : String) (body qs : List (String × JVal)) :
    Nat → Nat → List JVal → List Request × Except String JVal
  | 0, _, _ => ([], Except.error "pagination fuel exhausted")
  | fuel + 1, page, acc =>
    let req : Request :=
      ⟨method, endpoint, body,
        setKey (setKey qs "per_page" (JVal.num 100)) "page" (JVal.num (Int.ofNat page))⟩
    match net req with
    | Except.error e => ([req], Except.error e)
    | Except.ok (JVal.arr xs) =>
        if xs.length < 100 then ([req], Except.ok (JVal.arr (acc ++ xs)))
        else
          let next := githubApiRequestAllItemsLoop net method endpoint body qs fuel (page + 1) (acc ++ xs)
          (req :: next.1, next.2)
    | Except.ok _ => ([req], Except.error "Response is not an array")

/-- Modelled from the spec (§4.3): the all-pages accumulation helper, starting
at page 1 with an empty accumulator. -/
def githubApiRequestAllItems (net : Request → Except String JVal) (fuel : Nat)
    (method endpoint : String) (body qs : List (String × JVal)) :
    List Request × Except String JVal :=
  githubApiRequestAllItemsLoop net method endpoint body qs fuel 1 []

/-- Modelled from the spec (§4.4): GenericFunctions.getFileSha is not among
the sources.  It performs a GET of contents/{path}, scoped to the branch via
the query when one is supplied, and extracts the sha field of the single-file
response; it fails on a directory listing (an array, which has no singular
sha) and when the GET itself fails. -/
def getFileSha (net : Request → Except String JVal) (owner repository filePath : String)
    (branch : Option JVal) : List Request × Except String JVal :=
  let qs : List (String × JVal) :=
    match branch with
    | some b => [("ref", b)]
    | none => []
  let req : Request :=
    ⟨"GET", "/repos/" ++ owner ++ "/" ++ repository ++ "/contents/" ++ encodeURI filePath,
      [], qs⟩
  match net req with
  | Except.error e => ([req], Except.error e)
  | Except.ok (JVal.arr _) =>
      ([req], Except.error "The path resolved to a directory, not a single file")
  | Except.ok v =>
      match jgetV v "sha" with
      | JVal.undef => ([req], Except.error "Could not get the SHA of the file")
      | sha => ([req], Except.ok sha)

/-- The resolved routing decision of one item: HTTP method, endpoint, body,
query string, and whether the run is in return-all pagination mode. -/
structure RouteSpec where
  requestMethod : String
  endpoint : String
  body : List (String × JVal)
  qs : List (String × JVal)
  returnAll : Bool
deriving Repr

/-- The author/committer/branch body prefix built from the
additionalParameters collection (lines 1861-1870 and 1911-1920 of the
source). -/
def additionalParametersBody (ap : List (String × JVal)) : List (String × JVal) :=
  let body1 := if truthy (jget ap "author") then setKey [] "author" (jget ap "author") else []
  let body2 :=
    if truthy (jget ap "committer") then setKey body1 "committer" (jget ap "committer")
    else body1
  if truthy (jget ap "branch") && truthy (jgetV (jget ap "branch") "branch") then
    setKey body2 "branch" (jgetV (jget ap "branch") "branch")
  else body2

/-- The file resource branch of the router ladder (lines 1851-1934).  The
create/edit branch builds the author/committer/branch prefix, performs the SHA
lookup for edit, sets the commit message, then the base64 content from the
named binary attachment or from the text parameter; delete performs the SHA
lookup after the message; get and list only build the contents endpoint.  An
operation outside the ladder falls through with the reset defaults (GET and an
empty endpoint), as in the source. -/
def routeFile (env : Env) (i : Nat) (item : Item) (owner repository operation : String) :
    List Request × Except String RouteSpec :=
  let p := env.params
  if operation = "create" ∨ operation = "edit" then
    let filePath := p.filePath i
    let body3 := additionalParametersBody (p.additionalParameters i)
    let shaStep : List Request × Except String (List (String × JVal)) :=
      if operation = "edit" then
        match getFileSha env.net owner repository filePath (lookupKey body3 "branch") with
        | (reqs, Except.error e) => (reqs, Except.error e)
        | (reqs, Except.ok sha) => (reqs, Except.ok (setKey body3 "sha" sha))
      else ([], Except.ok body3)
    match shaStep with
    | (reqs, Except.error e) => (reqs, Except.error e)
    | (reqs, Except.ok body4) =>
      let body5 := setKey body4 "message" (JVal.str (p.commitMessage i))
      let contentStep : Except String (List (String × JVal)) :=
        if p.binaryData i then
          match item.binary with
          | none => Except.error "No binary data exists on item!"
          | some bin =>
            let binaryPropertyName := p.binaryPropertyName i
            match lookupKey bin binaryPropertyName with
            | none =>
                Except.error
                  ("No binary data property \"" ++ binaryPropertyName ++
                    "\" does not exists on item!")
            | some bf => Except.ok (setKey body5 "content" (JVal.str (bf.data)))
        else
          Except.ok (setKey body5 "content"
            (JVal.str (base64Encode (strBytes (p.fileContent i)))))
      match contentStep with
      | Except.error e => (reqs, Except.error e)
      | Except.ok body6 =>
        (reqs, Except.ok
          ⟨"PUT", "/repos/" ++ owner ++ "/" ++ repository ++ "/contents/" ++ encodeURI filePath,
            body6, [], false⟩)
  else if operation = "delete" then
    let body3 := additionalParametersBody (p.additionalParameters i)
    let filePath := p.filePath i
    let body4 := setKey body3 "message" (JVal.str (p.commitMessage i))
    match getFileSha env.net owner repository filePath (lookupKey body4 "branch") with
    | (reqs, Except.error e) => (reqs, Except.error e)
    | (reqs, Except.ok sha) =>
      (reqs, Except.ok
        ⟨"DELETE", "/repos/" ++ owner ++ "/" ++ repository ++ "/contents/" ++ encodeURI filePath,
          setKey body4 "sha" sha, [], false⟩)
  else if operation = "get" ∨ operation = "list" then
    ([], Except.ok
      ⟨"GET", "/repos/" ++ owner ++ "/" ++ repository ++ "/contents/" ++ encodeURI (p.filePath i),
        [], [], false⟩)
  else ([], Except.ok ⟨"GET", "", [], [], false⟩)

/-- The issue resource branch of the router ladder (lines 1935-2005). -/
def routeIssue (p : ParamSource) (i : Nat) (owner repository operation : String) :
    List Request × Except String RouteSpec :=
  if operation = "create" then
    let body0 := setKey [] "title" (JVal.str (p.title i))
    let body1 := setKey body0 "body" (JVal.str (p.bodyText i))
    let labels := p.labels i
    let assignees := p.assignees i
    let body2 := setKey body1 "labels" (JVal.arr (labels.map (fun d => jget d "label")))
    let body3 := setKey body2 "assignees" (JVal.arr (assignees.map (fun d => jget d "assignee")))
    ([], Except.ok ⟨"POST", "/repos/" ++ owner ++ "/" ++ repository ++ "/issues", body3, [], false⟩)
  else if operation = "createComment" then
    let issueNumber := p.issueNumber i
    let body0 := setKey [] "body" (JVal.str (p.bodyText i))
    ([], Except.ok
      ⟨"POST", "/repos/" ++ owner ++ "/" ++ repository ++ "/issues/" ++ issueNumber ++ "/comments",
        body0, [], false⟩)
  else if operation = "edit" then
    let issueNumber := p.issueNumber i
    let body0 := p.editFields i
    let labelsStep : Except String (List (String × JVal)) :=
      match jget body0 "labels" with
      | JVal.undef => Except.ok body0
      | JVal.arr xs =>
          Except.ok (setKey body0 "labels" (JVal.arr (xs.map (fun d => jgetV d "label"))))
      | _ => Except.error "TypeError: body.labels.map is not a function"
    match labelsStep with
    | Except.error e => ([], Except.error e)
    | Except.ok body1 =>
      let assigneesStep : Except String (List (String × JVal)) :=
        match jget body1 "assignees" with
        | JVal.undef => Except.ok body1
        | JVal.arr xs =>
            Except.ok (setKey body1 "assignees" (JVal.arr (xs.map (fun d => jgetV d "assignee"))))
        | _ => Except.error "TypeError: body.assignees.map is not a function"
      match assigneesStep with
      | Except.error e => ([], Except.error e)
      | Except.ok body2 =>
        ([], Except.ok
          ⟨"PATCH", "/repos/" ++ owner ++ "/" ++ repository ++ "/issues/" ++ issueNumber,
            body2, [], false⟩)
  else if operation = "get" then
    ([], Except.ok
      ⟨"GET", "/repos/" ++ owner ++ "/" ++ repository ++ "/issues/" ++ p.issueNumber i,
        [], [], false⟩)
  else if operation = "lock" then
    let issueNumber := p.issueNumber i
    let qs0 := setKey [] "lock_reason" (JVal.str (p.lockReason i))
    ([], Except.ok
      ⟨"PUT", "/repos/" ++ owner ++ "/" ++ repository ++ "/issues/" ++ issueNumber ++ "/lock",
        [], qs0, false⟩)
  else ([], Except.ok ⟨"GET", "", [], [], false⟩)

/-- The release resource branch of the router ladder (lines 2006-2069).  The
source uses sequential if statements over the mutually exclusive operation
tags, which is equivalent to the chain used here.  Note that returnAll and
limit are read at item index 0 for getAll, exactly as in the source. -/
def routeRelease (p : ParamSource) (i : Nat) (owner repository operation : String) :
    List Request × Except String RouteSpec :=
  if operation = "create" then
    let body0 := setKey (p.additionalFields i) "tag_name" (JVal.str (p.releaseTag i))
    ([], Except.ok ⟨"POST", "/repos/" ++ owner ++ "/" ++ repository ++ "/releases", body0, [], false⟩)
  else if operation = "delete" then
    ([], Except.ok
      ⟨"DELETE", "/repos/" ++ owner ++ "/" ++ repository ++ "/releases/" ++ p.release_id i,
        [], [], false⟩)
  else if operation = "get" then
    ([], Except.ok
      ⟨"GET", "/repos/" ++ owner ++ "/" ++ repository ++ "/releases/" ++ p.release_id i,
        [], [], false⟩)
  else if operation = "getAll" then
    let returnAll := p.returnAll 0
    let qs0 : List (String × JVal) :=
      if returnAll = false then setKey [] "per_page" (JVal.num (p.limit 0)) else []
    ([], Except.ok
      ⟨"GET", "/repos/" ++ owner ++ "/" ++ repository ++ "/releases", [], qs0, returnAll⟩)
  else if operation = "update" then
    ([], Except.ok
      ⟨"PATCH", "/repos/" ++ owner ++ "/" ++ repository ++ "/releases/" ++ p.release_id i,
        p.additionalFields i, [], false⟩)
  else ([], Except.ok ⟨"GET", "", [], [], false⟩)

/-- The repository resource branch of the router ladder (lines 2070-2119). -/
def routeRepository (p : ParamSource) (i : Nat) (owner repository operation : String) :
    List Request × Except String RouteSpec :=
  if operation = "listPopularPaths" then
    ([], Except.ok
      ⟨"GET", "/repos/" ++ owner ++ "/" ++ repository ++ "/traffic/popular/paths",
        [], [], false⟩)
  else if operation = "listReferrers" then
    ([], Except.ok
      ⟨"GET", "/repos/" ++ owner ++ "/" ++ repository ++ "/traffic/popular/referrers",
        [], [], false⟩)
  else if operation = "get" then
    ([], Except.ok ⟨"GET", "/repos/" ++ owner ++ "/" ++ repository, [], [], false⟩)
  else if operation = "getLicense" then
    ([], Except.ok ⟨"GET", "/repos/" ++ owner ++ "/" ++ repository ++ "/license", [], [], false⟩)
  else if operation = "getIssues" then
    let qs0 := p.getRepositoryIssuesFilters i
    let returnAll := p.returnAll 0
    let qs1 := if returnAll = false then setKey qs0 "per_page" (JVal.num (p.limit 0)) else qs0
    ([], Except.ok
      ⟨"GET", "/repos/" ++ owner ++ "/" ++ repository ++ "/issues", [], qs1, returnAll⟩)
  else ([], Except.ok ⟨"GET", "", [], [], false⟩)

/-- The review resource branch of the router ladder (lines 2120-2176).  For
create, the additionalFields collection is copied into the body, the
human-facing event name is snake-cased and upper-cased, and the body text is
added exactly when the converted event is REQUEST_CHANGES or COMMENT. -/
def routeReview (p : ParamSource) (i : Nat) (owner repository operation : String) :
    List Request × Except String RouteSpec :=
  if operation = "get" then
    let reviewId := p.reviewId i
    let pullRequestNumber := p.pullRequestNumber i
    ([], Except.ok
      ⟨"GET",
        "/repos/" ++ owner ++ "/" ++ repository ++ "/pulls/" ++ pullRequestNumber ++
          "/reviews/" ++ reviewId,
        [], [], false⟩)
  else if operation = "getAll" then
    let returnAll := p.returnAll 0
    let pullRequestNumber := p.pullRequestNumber i
    let qs0 : List (String × JVal) :=
      if returnAll = false then setKey [] "per_page" (JVal.num (p.limit 0)) else []
    ([], Except.ok
      ⟨"GET",
        "/repos/" ++ owner ++ "/" ++ repository ++ "/pulls/" ++ pullRequestNumber ++ "/reviews",
        [], qs0, returnAll⟩)
  else if operation = "create" then
    let pullRequestNumber := p.pullRequestNumber i
    let body0 := p.additionalFields i
    let body1 := setKey body0 "event" (JVal.str (toUpperStr (snakeCase (p.event i))))
    let body2 :=
      match jget body1 "event" with
      | JVal.str e =>
          if e = "REQUEST_CHANGES" ∨ e = "COMMENT" then
            setKey body1 "body" (JVal.str (p.bodyText i))
          else body1
      | _ => body1
    ([], Except.ok
      ⟨"POST",
        "/repos/" ++ owner ++ "/" ++ repository ++ "/pulls/" ++ pullRequestNumber ++ "/reviews",
        body2, [], false⟩)
  else if operation = "update" then
    let pullRequestNumber := p.pullRequestNumber i
    let reviewId := p.reviewId i
    let body0 := setKey [] "body" (JVal.str (p.bodyText i))
    ([], Except.ok
      ⟨"PUT",
        "/repos/" ++ owner ++ "/" ++ repository ++ "/pulls/" ++ pullRequestNumber ++
          "/reviews/" ++ reviewId,
        body0, [], false⟩)
  else ([], Except.ok ⟨"GET", "", [], [], false⟩)

/-- The user resource branch of the router ladder (lines 2177-2204). -/
def routeUser (p : ParamSource) (i : Nat) (owner operation : String) :
    List Request × Except String RouteSpec :=
  if operation = "getRepositories" then
    let returnAll := p.returnAll 0
    let qs0 : List (String × JVal) :=
      if returnAll = false then setKey [] "per_page" (JVal.num (p.limit 0)) else []
    ([], Except.ok ⟨"GET", "/users/" ++ owner ++ "/repos", [], qs0, returnAll⟩)
  else if operation = "invite" then
    let org := p.organization i
    let body0 := setKey [] "email" (JVal.str (p.email i))
    ([], Except.ok ⟨"POST", "/orgs/" ++ org ++ "/invitations", body0, [], false⟩)
  else ([], Except.ok ⟨"GET", "", [], [], false⟩)

/-- The outcome of one item iteration that did not throw: either a response
value handed to the output-accumulation step, or the early-returned item of
the file:get binary special case (line 2241). -/
inductive ItemStep where
  | resp (responseData : JVal)
  | earlyRet (newItem : Item)
deriving Repr

/-- One iteration body of the item loop of Github.execute (lines 1832-2252,
everything inside the try): parameter resolution, routing, the single or
paginated request, the file:get binary special case, and the release:delete
response substitution.  Returns the requests issued for this item and the
outcome or the thrown error message. -/
def processOne (env : Env) (i : Nat) (item : Item) : List Request × Except String ItemStep :=
  let p := env.params
  let operation := p.operation 0
  let resource := p.resource 0
  let fullOperation := resource ++ ":" ++ operation
  let owner := if fullOperation = "user:invite" then "" else p.owner i
  let repository :=
    if fullOperation = "user:getRepositories" ∨ fullOperation = "user:invite" then ""
    else p.repository i
  let routed : List Request × Except String RouteSpec :=
    if resource = "file" then routeFile env i item owner repository operation
    else if resource = "issue" then routeIssue p i owner repository operation
    else if resource = "release" then routeRelease p i owner repository operation
    else if resource = "repository" then routeRepository p i owner repository operation
    else if resource = "review" then routeReview p i owner repository operation
    else if resource = "user" then routeUser p i owner operation
    else ([], Except.error ("The resource \"" ++ resource ++ "\" is not known!"))
  match routed with
  | (reqs, Except.error e) => (reqs, Except.error e)
  | (reqs, Except.ok rs) =>
    let called :=
      if rs.returnAll then
        githubApiRequestAllItems env.net env.pageFuel rs.requestMethod rs.endpoint rs.body rs.qs
      else githubApiRequest env.net rs.requestMethod rs.endpoint rs.body rs.qs
    match called with
    | (reqs2, Except.error e) => (reqs ++ reqs2, Except.error e)
    | (reqs2, Except.ok responseData) =>
      if fullOperation = "file:get" ∧ p.asBinaryProperty i = true then
        match responseData with
        | JVal.arr _ => (reqs ++ reqs2, Except.error "File Path is a folder, not a file.")
        | _ =>
          let binaryPropertyName := p.binaryPropertyName i
          match jgetV responseData "content" with
          | JVal.str content =>
            let oldBinary :=
              match item.binary with
              | none => []
              | some bin => bin
            let newItem : Item :=
              { json := item.json,
                binary := some (setKey oldBinary binaryPropertyName
                  (prepareBinaryData (base64Decode content) (jgetV responseData "path"))) }
            (reqs ++ reqs2, Except.ok (ItemStep.earlyRet newItem))
          | _ =>
            (reqs ++ reqs2,
              Except.error "The first argument must be of type string or an instance of Buffer")
      else
        let responseData2 :=
          if fullOperation = "release:delete" then JVal.obj [("success", JVal.bool true)]
          else responseData
        (reqs ++ reqs2, Except.ok (ItemStep.resp responseData2))

/-- The replace-single membership list (lines 1786-1806 of the source). -/
def overwriteDataOperations : List String :=
  ["file:create", "file:delete", "file:edit", "file:get",
   "issue:create", "issue:createComment", "issue:edit", "issue:get",
   "release:create", "release:delete", "release:get", "release:update",
   "repository:get", "repository:getLicense", "repository:getProfile",
   "review:create", "review:get", "review:update",
   "user:invite"]

/-- The replace-flatten membership list (lines 1809-1817 of the source). -/
def overwriteDataOperationsArray : List String :=
  ["file:list", "repository:getIssues", "repository:listPopularPaths",
   "repository:listReferrers", "user:getRepositories", "release:getAll",
   "review:getAll"]

/-- The three output-accumulation behaviours of the reshaper. -/
inductive ResponseShape where
  | replaceSingle
  | replaceFlatten
  | passThrough
deriving Repr, DecidableEq

/-- The response-shape classification applied at lines 2248-2252 and 2267:
membership in the two fixed lists, never the runtime response value. -/
def responseShape (fullOperation : String) : ResponseShape :=
  if overwriteDataOperations.contains fullOperation then ResponseShape.replaceSingle
  else if overwriteDataOperationsArray.contains fullOperation then ResponseShape.replaceFlatten
  else ResponseShape.passThrough

/-- The elements contributed by returnData.push.apply(returnData, v): the
elements of an array, nothing for a non-array value. -/
def toElems : JVal → List JVal
  | JVal.arr xs => xs
  | _ => []

/-- The error object pushed or substituted by the catch handler. -/
def errObj (msg : String) : JVal :=
  JVal.obj [("error", JVal.str msg)]

/-- this.helpers.returnJsonArray: wraps plain JSON values as items. -/
def returnJsonArray (vals : List JVal) : List Item :=
  vals.map (fun v => { json := v, binary := none })

/-- The item loop of Github.execute together with the final output selection
(lines 1832-2273).  done holds the already processed items in reverse, rest
the items still to process; returnData is the run-wide accumulation sequence
and log the requests issued so far. -/
def runItems (env : Env) (fullOperation : String) :
    List Item → List Item → List JVal → List Request →
      List Request × Except String (List Item)
  | done, [], returnData, log =>
      (log, Except.ok
        (match responseShape fullOperation with
         | ResponseShape.passThrough => done.reverse
         | _ => returnJsonArray returnData))
  | done, item :: rest, returnData, log =>
    match processOne env done.length item with
    | (reqs, Except.ok (ItemStep.earlyRet newItem)) =>
        (log ++ reqs, Except.ok (done.reverse ++ newItem :: rest))
    | (reqs, Except.ok (ItemStep.resp v)) =>
        let returnData2 :=
          match responseShape fullOperation with
          | ResponseShape.replaceSingle => returnData ++ [v]
          | ResponseShape.replaceFlatten => returnData ++ toElems v
          | ResponseShape.passThrough => returnData
        runItems env fullOperation (item :: done) rest returnData2 (log ++ reqs)
    | (reqs, Except.error e) =>
        if env.continueOnFail then
          match responseShape fullOperation with
          | ResponseShape.passThrough =>
              runItems env fullOperation
                ({ json := errObj e, binary := item.binary } :: done) rest returnData (log ++ reqs)
          | _ =>
              runItems env fullOperation (item :: done) rest
                (returnData ++ [errObj e]) (log ++ reqs)
        else (log ++ reqs, Except.error e)

/-- Github.execute: reads resource and operation at item index 0, runs the
item loop over the input items, and returns the issued requests together with
the output items or the error that aborted the run. -/
def execute (env : Env) (items : List Item) : List Request × Except String (List Item) :=
  let fullOperation := env.params.resource 0 ++ ":" ++ env.params.operation 0
  runItems env fullOperation [] items [] []

/-! ### Concrete sample runs used to instantiate the theorems -/

/-- A parameter source with one fixed value per parameter. -/
def baseParams : ParamSource where
  resource := fun _ => "repository"
  operation := fun _ => "get"
  owner := fun _ => "octo"
  repository := fun _ => "hello"
  filePath := fun _ => "docs/README.md"
  commitMessage := fun _ => "update"
  binaryData := fun _ => false
  binaryPropertyName := fun _ => "data"
  fileContent := fun _ => "hi"
  additionalParameters := fun _ => []
  title := fun _ => "t"
  bodyText := fun _ => "text"
  labels := fun _ => []
  assignees := fun _ => []
  issueNumber := fun _ => "12"
  lockReason := fun _ => "resolved"
  editFields := fun _ => []
  releaseTag := fun _ => "v1"
  release_id := fun _ => "7"
  additionalFields := fun _ => []
  getRepositoryIssuesFilters := fun _ => []
  reviewId := fun _ => "5"
  pullRequestNumber := fun _ => "3"
  event := fun _ => "approve"
  organization := fun _ => "org"
  email := fun _ => "a@b.c"
  returnAll := fun _ => false
  limit := fun _ => 50
  asBinaryProperty := fun _ => false

/-- A network oracle answering every request with the same value. -/
def constNet (v : JVal) : Request → Except String JVal := fun _ => Except.ok v

/-- An input item with an empty payload and no attachments. -/
def it0 : Item := { json := JVal.obj [], binary := none }

/-- An unknown-resource run with continue-on-failure enabled. -/
def envBogus : Env :=
  { params := { baseParams with resource := fun _ => "bogus" },
    continueOnFail := true, net := constNet (JVal.obj []), pageFuel := 4 }

/-- A file:get run with binary delivery, answered with a single-file object. -/
def envFileGetBin : Env :=
  { params := { baseParams with
      resource := fun _ => "file", operation := fun _ => "get",
      asBinaryProperty := fun _ => true },
    continueOnFail := false,
    net := constNet (JVal.obj [("content", JVal.str "aGk="), ("path", JVal.str "f.txt")]),
    pageFuel := 4 }

/-- A file:get binary run answered with a directory listing. -/
def envFileGetDir : Env :=
  { envFileGetBin with net := constNet (JVal.arr []) }

/-- A release:getAll run with a bounded limit. -/
def envReleaseAll : Env :=
  { params := { baseParams with
      resource := fun _ => "release", operation := fun _ => "getAll" },
    continueOnFail := false, net := constNet (JVal.arr []), pageFuel := 4 }

/-- A file:edit run whose SHA lookup is answered with a sha field. -/
def envFileEdit : Env :=
  { params := { baseParams with
      resource := fun _ => "file", operation := fun _ => "edit" },
    continueOnFail := false,
    net := constNet (JVal.obj [("sha", JVal.str "abc123")]), pageFuel := 4 }

/-- A review:create run with event requestChanges. -/
def envReviewCreate : Env :=
  { params := { baseParams with
      resource := fun _ => "review", operation := fun _ => "create",
      event := fun _ => "requestChanges" },
    continueOnFail := false, net := constNet (JVal.obj []), pageFuel := 4 }

/-- An issue:create run with two labels and one assignee. -/
def envIssueCreate : Env :=
  { params := { baseParams with
      resource := fun _ => "issue", operation := fun _ => "create",
      labels := fun _ => [[("label", JVal.str "bug")], [("label", JVal.str "ui")]],
      assignees := fun _ => [[("assignee", JVal.str "octo")]] },
    continueOnFail := false, net := constNet (JVal.obj []), pageFuel := 4 }

/-- A repository:get run whose owner contains a reserved URI character. -/
def envReservedOwner : Env :=
  { params := { baseParams with owner := fun _ => "a?b", repository := fun _ => "r" },
    continueOnFail := false, net := constNet (JVal.obj []), pageFuel := 4 }

/-- A repository:get run used for the router witness. -/
def envRepoGet : Env :=
  { params := baseParams, continueOnFail := false,
    net := constNet (JVal.obj [("id", JVal.num 1)]), pageFuel := 4 }

/-- The single request issued by file:get for item i. -/
def fileGetReq (env : Env) (i : Nat) : Request :=
  ⟨"GET",
    "/repos/" ++ env.params.owner i ++ "/" ++ env.params.repository i ++ "/contents/" ++
      encodeURI (env.params.filePath i),
    [], []⟩

/-- The item produced by the file:get binary special case: a copy of the item
with the decoded content attached under the configured binary property name,
next to the attachments already present. -/
def fileGetNewItem (env : Env) (i : Nat) (item : Item) (fields : List (String × JVal))
    (content : String) : Item :=
  { json := item.json,
    binary := some (setKey (item.binary.getD []) (env.params.binaryPropertyName i)
      (prepareBinaryData (base64Decode content) (jget fields "path"))) }

/-- The single bounded-limit request of release:getAll for item i. -/
def releaseGetAllReq (env : Env) (i : Nat) : Request :=
  ⟨"GET", "/repos/" ++ env.params.owner i ++ "/" ++ env.params.repository i ++ "/releases",
    [], [("per_page", JVal.num (env.params.limit 0))]⟩

/-- The single bounded-limit request of repository:getIssues for item i. -/
def repoGetIssuesReq (env : Env) (i : Nat) : Request :=
  ⟨"GET", "/repos/" ++ env.params.owner i ++ "/" ++ env.params.repository i ++ "/issues",
    [], setKey (env.params.getRepositoryIssuesFilters i) "per_page" (JVal.num (env.params.limit 0))⟩

/-- The single bounded-limit request of review:getAll for item i. -/
def reviewGetAllReq (env : Env) (i : Nat) : Request :=
  ⟨"GET",
    "/repos/" ++ env.params.owner i ++ "/" ++ env.params.repository i ++ "/pulls/" ++
      env.params.pullRequestNumber i ++ "/reviews",
    [], [("per_page", JVal.num (env.params.limit 0))]⟩

/-- The single bounded-limit request of user:getRepositories for item i. -/
def userGetReposReq (env : Env) (i : Nat) : Request :=
  ⟨"GET", "/users/" ++ env.params.owner i ++ "/repos",
    [], [("per_page", JVal.num (env.params.limit 0))]⟩

/-- The mutating PUT request of file:edit for item i with text content, given
the looked-up sha. -/
def fileEditReq (env : Env) (i : Nat) (sha : JVal) : Request :=
  ⟨"PUT",
    "/repos/" ++ env.params.owner i ++ "/" ++ env.params.repository i ++ "/contents/" ++
      encodeURI (env.params.filePath i),
    setKey (setKey (setKey (additionalParametersBody (env.params.additionalParameters i))
        "sha" sha)
      "message" (JVal.str (env.params.commitMessage i)))
      "content" (JVal.str (base64Encode (strBytes (env.params.fileContent i)))),
    []⟩

/-- The mutating DELETE request of file:delete for item i, given the looked-up
sha. -/
def fileDeleteReq (env : Env) (i : Nat) (sha : JVal) : Request :=
  ⟨"DELETE",
    "/repos/" ++ env.params.owner i ++ "/" ++ env.params.repository i ++ "/contents/" ++
      encodeURI (env.params.filePath i),
    setKey (setKey (additionalParametersBody (env.params.additionalParameters i))
        "message" (JVal.str (env.params.commitMessage i)))
      "sha" sha,
    []⟩

/-- The body built by review:create for item i (lines 2155-2161). -/
def reviewCreateBody (env : Env) (i : Nat) : List (String × JVal) :=
  let body1 := setKey (env.params.additionalFields i) "event"
    (JVal.str (toUpperStr (snakeCase (env.params.event i))))
  match jget body1 "event" with
  | JVal.str e =>
      if e = "REQUEST_CHANGES" ∨ e = "COMMENT" then
        setKey body1 "body" (JVal.str (env.params.bodyText i))
      else body1
  | _ => body1

/-- The request issued by review:create for item i. -/
def reviewCreateReq (env : Env) (i : Nat) : Request :=
  ⟨"POST",
    "/repos/" ++ env.params.owner i ++ "/" ++ env.params.repository i ++ "/pulls/" ++
      env.params.pullRequestNumber i ++ "/reviews",
    reviewCreateBody env i, []⟩

/-- The body built by issue:create for item i (lines 1943-1950). -/
def issueCreateBody (env : Env) (i : Nat) : List (String × JVal) :=
  setKey (setKey (setKey (setKey [] "title" (JVal.str (env.params.title i)))
      "body" (JVal.str (env.params.bodyText i)))
      "labels" (JVal.arr ((env.params.labels i).map (fun d => jget d "label"))))
    "assignees" (JVal.arr ((env.params.assignees i).map (fun d => jget d "assignee")))

/-- The request issued by issue:create for item i. -/
def issueCreateReq (env : Env) (i : Nat) : Request :=
  ⟨"POST", "/repos/" ++ env.params.owner i ++ "/" ++ env.params.repository i ++ "/issues",
    issueCreateBody env i, []⟩

/-! ### Association-list lemmas -/

theorem lookupKey_setKey {α : Type} (l : List (String × α)) (k k2 : String) (v : α) :
    lookupKey (setKey l k v) k2 = if k2 = k then some v else lookupKey l k2 := by
  induction l with
  | nil =>
    simp only [setKey, lookupKey]
    by_cases h : k = k2
    · subst h; simp
    · simp [h, Ne.symm h]
  | cons hd tl ih =>
    obtain ⟨k3, w⟩ := hd
    simp only [setKey]
    by_cases h3 : k3 = k
    · subst h3
      simp only [if_pos rfl, lookupKey]
      by_cases h : k3 = k2
      · subst h; simp
      · simp [h, Ne.symm h]
    · simp only [if_neg h3, lookupKey]
      by_cases h : k3 = k2
      · subst h; simp [h3]
      · simp [h, ih]

theorem lookupKey_setKey_self {α : Type} (l : List (String × α)) (k : String) (v : α) :
    lookupKey (setKey l k v) k = some v := by
  simp [lookupKey_setKey]

theorem lookupKey_setKey_ne {α : Type} (l : List (String × α)) {k k2 : String} (v : α)
    (h : k2 ≠ k) : lookupKey (setKey l k v) k2 = lookupKey l k2 := by
  simp [lookupKey_setKey, h]

/-! ### Base64 lemmas -/

theorem findIdx_lt_length {c : Char} :
    ∀ (l : List Char) (n : Nat), findIdx c l = some n → n < l.length
  | [], n, h => by simp [findIdx] at h
  | d :: rest, n, h => by
    simp only [findIdx] at h
    split at h
    · cases h; simp
    · obtain ⟨m, hm, hn⟩ := Option.map_eq_some'.mp h
      have := findIdx_lt_length rest m hm
      simp only [List.length_cons]
      omega

theorem decChar_lt {c : Char} {n : Nat} (h : decChar c = some n) : n < 64 := by
  have h2 := findIdx_lt_length base64Chars n h
  have h3 : base64Chars.length = 64 := by decide
  omega

theorem decChar_encChar : ∀ n : Nat, n < 64 → decChar (encChar n) = some n := by decide

theorem decChar_pad : decChar '=' = none := by decide

theorem decode_encodeBytes :
    ∀ bs : List Nat, (∀ b ∈ bs, b < 256) →
      base64DecodeSextets ((base64EncodeBytes bs).filterMap decChar) = bs
  | [], _ => rfl
  | [a], h => by
    have ha : a < 256 := h a (by simp)
    have h1 : a / 4 < 64 := by omega
    have h2 : a % 4 * 16 < 64 := by omega
    simp only [base64EncodeBytes, List.filterMap_cons, decChar_encChar _ h1,
      decChar_encChar _ h2, decChar_pad, List.filterMap_nil, base64DecodeSextets]
    simp only [List.cons.injEq, and_true]
    omega
  | [a, b], h => by
    have ha : a < 256 := h a (by simp)
    have hb : b < 256 := h b (by simp)
    have h1 : a / 4 < 64 := by omega
    have h2 : a % 4 * 16 + b / 16 < 64 := by omega
    have h3 : b % 16 * 4 < 64 := by omega
    simp only [base64EncodeBytes, List.filterMap_cons, decChar_encChar _ h1,
      decChar_encChar _ h2, decChar_encChar _ h3, decChar_pad, List.filterMap_nil,
      base64DecodeSextets]
    simp only [List.cons.injEq, and_true]
    constructor
    · omega
    · omega
  | a :: b :: c :: rest, h => by
    have ha : a < 256 := h a (by simp)
    have hb : b < 256 := h b (by simp)
    have hc : c < 256 := h c (by simp)
    have h1 : a / 4 < 64 := by omega
    have h2 : a % 4 * 16 + b / 16 < 64 := by omega
    have h3 : b % 16 * 4 + c / 64 < 64 := by omega
    have h4 : c % 64 < 64 := by omega
    have ih := decode_encodeBytes rest (fun x hx => h x (by simp [hx]))
    simp only [base64EncodeBytes, List.filterMap_cons, decChar_encChar _ h1,
      decChar_encChar _ h2, decChar_encChar _ h3, decChar_encChar _ h4]
    have hgroup :
        base64DecodeSextets (a / 4 :: (a % 4 * 16 + b / 16) :: (b % 16 * 4 + c / 64) ::
            c % 64 :: (base64EncodeBytes rest).filterMap decChar) =
          (a / 4 * 4 + (a % 4 * 16 + b / 16) / 16) ::
            ((a % 4 * 16 + b / 16) % 16 * 16 + (b % 16 * 4 + c / 64) / 4) ::
            ((b % 16 * 4 + c / 64) % 4 * 64 + c % 64) ::
            base64DecodeSextets ((base64EncodeBytes rest).filterMap decChar) := rfl
    rw [hgroup, ih]
    simp only [List.cons.injEq, and_true]
    refine ⟨by omega, by omega, by omega⟩

theorem base64_decode_encode (bs : List Nat) (h : ∀ b ∈ bs, b < 256) :
    base64Decode (base64Encode bs) = bs :=
  decode_encodeBytes bs h

theorem decodeSextets_lt :
    ∀ l : List Nat, (∀ x ∈ l, x < 64) → ∀ b ∈ base64DecodeSextets l, b < 256
  | a :: b :: c :: d :: rest, h => by
    intro x hx
    have ha : a < 64 := h a (by simp)
    have hb : b < 64 := h b (by simp)
    have hc : c < 64 := h c (by simp)
    have hd : d < 64 := h d (by simp)
    have ih := decodeSextets_lt rest (fun y hy => h y (by simp [hy]))
    simp only [base64DecodeSextets, List.mem_cons] at hx
    rcases hx with rfl | rfl | rfl | hx
    · omega
    · omega
    · omega
    · exact ih x hx
  | [], _ => by intro x hx; simp [base64DecodeSextets] at hx
  | [a], _ => by intro x hx; simp [base64DecodeSextets] at hx
  | [a, b], h => by
    intro x hx
    have ha : a < 64 := h a (by simp)
    have hb : b < 64 := h b (by simp)
    simp only [base64DecodeSextets, List.mem_singleton] at hx
    omega
  | [a, b, c], h => by
    intro x hx
    have ha : a < 64 := h a (by simp)
    have hb : b < 64 := h b (by simp)
    have hc : c < 64 := h c (by simp)
    simp only [base64DecodeSextets, List.mem_cons, List.not_mem_nil, or_false] at hx
    rcases hx with rfl | rfl
    · omega
    · omega

theorem base64Decode_lt (s : String) : ∀ b ∈ base64Decode s, b < 256 := by
  apply decodeSextets_lt
  intro x hx
  obtain ⟨c, _, hdc⟩ := List.mem_filterMap.mp hx
  exact decChar_lt hdc

/-! ### Loop lemmas -/

theorem runItems_ok_of_continue (env : Env) (hcf : env.continueOnFail = true) (f : String) :
    ∀ (rest done : List Item) (rd : List JVal) (log : List Request),
      ∃ out, (runItems env f done rest rd log).2 = Except.ok out := by
  intro rest
  induction rest with
  | nil => intro done rd log; exact ⟨_, rfl⟩
  | cons item rest ih =>
    intro done rd log
    rw [runItems]
    rcases hp : processOne env done.length item with ⟨reqs, res⟩
    rcases res with e | step
    · simp only [hcf, if_true]
      rcases hs : responseShape f with _ | _ | _ <;> simp only [hs] <;> exact ih _ _ _
    · rcases step with v | ni
      · exact ih _ _ _
      · exact ⟨_, rfl⟩

theorem contains_eq_decide_mem (l : List String) (s : String) :
    l.contains s = decide (s ∈ l) := by
  simp [List.contains, List.elem_eq_mem]

/-! ### Claims -/

/-- C5: the replace-single and replace-flatten membership lists are disjoint,
and every operation key is classified into exactly one of replace-single,
replace-flatten and pass-through by membership in the two fixed lists alone;
the classifying function responseShape takes only the operation key, never the
runtime response. -/
theorem c5_response_shape_static :
    (∀ s ∈ overwriteDataOperations, s ∉ overwriteDataOperationsArray) ∧
    (∀ fullOperation : String,
      (fullOperation ∈ overwriteDataOperations ↔
        responseShape fullOperation = ResponseShape.replaceSingle) ∧
      (fullOperation ∈ overwriteDataOperationsArray ↔
        responseShape fullOperation = ResponseShape.replaceFlatten) ∧
      ((fullOperation ∉ overwriteDataOperations ∧
        fullOperation ∉ overwriteDataOperationsArray) ↔
        responseShape fullOperation = ResponseShape.passThrough)) := by
  have hdisj : ∀ s ∈ overwriteDataOperations, s ∉ overwriteDataOperationsArray := by decide
  refine ⟨hdisj, ?_⟩
  intro s
  by_cases h1 : s ∈ overwriteDataOperations
  · have h2 : s ∉ overwriteDataOperationsArray := hdisj s h1
    simp [responseShape, contains_eq_decide_mem, h1, h2]
  · by_cases h2 : s ∈ overwriteDataOperationsArray
    · simp [responseShape, contains_eq_decide_mem, h1, h2]
    · simp [responseShape, contains_eq_decide_mem, h1, h2]

/-- C5 witness: file:create is replace-single and not in the flatten list,
file:list is replace-flatten, issue:lock is pass-through. -/
theorem c5_witness :
    ("file:create" ∉ overwriteDataOperationsArray ∧
      responseShape "file:list" = ResponseShape.replaceFlatten) ∧
    responseShape "issue:lock" = ResponseShape.passThrough := by
  refine ⟨⟨c5_response_shape_static.1 "file:create" (by decide), ?_⟩, ?_⟩
  · exact ((c5_response_shape_static.2 "file:list").2.1).mp (by decide)
  · exact ((c5_response_shape_static.2 "issue:lock").2.2).mp (by decide)

/-- C2: when item i's processing throws, continue-on-failure substitutes an
error object into the run-wide accumulated output (replace-single and
replace-flatten operations) or into the item's payload (pass-through
operations) and processing continues with the remaining items, and no
exception escapes the run; without continue-on-failure the first error aborts
the whole run with that error, delivering no output. -/
theorem c2_error_propagation (env : Env) (fullOperation : String)
    (done rest : List Item) (item : Item) (returnData : List JVal)
    (log reqs : List Request) (e : String)
    (h : processOne env done.length item = (reqs, Except.error e)) :
    (env.continueOnFail = true →
      runItems env fullOperation done (item :: rest) returnData log =
        (if responseShape fullOperation = ResponseShape.passThrough then
          runItems env fullOperation ({ json := errObj e, binary := item.binary } :: done)
            rest returnData (log ++ reqs)
        else
          runItems env fullOperation (item :: done) rest
            (returnData ++ [errObj e]) (log ++ reqs))) ∧
    (env.continueOnFail = false →
      runItems env fullOperation done (item :: rest) returnData log =
        (log ++ reqs, Except.error e)) ∧
    (env.continueOnFail = true →
      ∀ (done2 rest2 : List Item) (rd2 : List JVal) (log2 : List Request),
        ∃ out, (runItems env fullOperation done2 rest2 rd2 log2).2 = Except.ok out) := by
  refine ⟨?_, ?_, ?_⟩
  · intro hcf
    rw [runItems, h]
    simp only [hcf, if_true]
    rcases hs : responseShape fullOperation with _ | _ | _ <;> simp [hs]
  · intro hcf
    rw [runItems, h]
    simp [hcf]
  · intro hcf done2 rest2 rd2 log2
    exact runItems_ok_of_continue env hcf fullOperation rest2 done2 rd2 log2

/-- C2 witness: a one-item run over an unknown resource with
continue-on-failure active substitutes the error object into the item payload
(pass-through classification) and continues. -/
theorem c2_witness :
    runItems envBogus "bogus:get" [] [it0] [] [] =
      runItems envBogus "bogus:get"
        [{ json := errObj "The resource \"bogus\" is not known!", binary := none }] [] [] [] := by
  have h := (c2_error_propagation envBogus "bogus:get" [] [] it0 [] [] []
      "The resource \"bogus\" is not known!" rfl).1 rfl
  simpa [it0] using h

/-! ### file:get binary special case -/

theorem processOne_fileGetBin_err (env : Env) (i : Nat) (item : Item) (xs : List JVal)
    (hres : env.params.resource 0 = "file") (hop : env.params.operation 0 = "get")
    (hbin : env.params.asBinaryProperty i = true)
    (hnet : env.net (fileGetReq env i) = Except.ok (JVal.arr xs)) :
    processOne env i item =
      ([fileGetReq env i], Except.error "File Path is a folder, not a file.") := by
  simp only [processOne, routeFile, githubApiRequest, hres, hop, hbin]
  simp only [show ("file" ++ ":" ++ "get" : String) = "file:get" from rfl]
  simp [fileGetReq] at hnet
  simp [hnet, fileGetReq]

theorem processOne_fileGetBin_ok (env : Env) (i : Nat) (item : Item)
    (fields : List (String × JVal)) (content : String)
    (hres : env.params.resource 0 = "file") (hop : env.params.operation 0 = "get")
    (hbin : env.params.asBinaryProperty i = true)
    (hnet : env.net (fileGetReq env i) = Except.ok (JVal.obj fields))
    (hc : jget fields "content" = JVal.str content) :
    processOne env i item =
      ([fileGetReq env i],
        Except.ok (ItemStep.earlyRet (fileGetNewItem env i item fields content))) := by
  simp only [processOne, routeFile, githubApiRequest, hres, hop, hbin]
  simp only [show ("file" ++ ":" ++ "get" : String) = "file:get" from rfl]
  simp [fileGetReq] at hnet
  cases hb : item.binary <;>
    simp [hnet, hc, jgetV, fileGetNewItem, hb, fileGetReq]

/-- C1: for file:get with the as-binary-property flag, an array response fails
the item with the folder usage error and produces no attachment, while a
single-object response has its base64 content field decoded into a new named
binary attachment placed on a copy of the item whose other attachment entries
are those of the original, and that item is returned immediately for this
iteration, bypassing the run-wide accumulation sequence. -/
theorem c1_file_get_binary (env : Env) (i : Nat) (item : Item)
    (hres : env.params.resource 0 = "file") (hop : env.params.operation 0 = "get")
    (hbin : env.params.asBinaryProperty i = true) :
    (∀ xs : List JVal, env.net (fileGetReq env i) = Except.ok (JVal.arr xs) →
      processOne env i item =
        ([fileGetReq env i], Except.error "File Path is a folder, not a file.")) ∧
    (∀ (fields : List (String × JVal)) (content : String),
      env.net (fileGetReq env i) = Except.ok (JVal.obj fields) →
      jget fields "content" = JVal.str content →
      processOne env i item =
        ([fileGetReq env i],
          Except.ok (ItemStep.earlyRet (fileGetNewItem env i item fields content))) ∧
      (fileGetNewItem env i item fields content).json = item.json ∧
      lookupKey ((fileGetNewItem env i item fields content).binary.getD [])
          (env.params.binaryPropertyName i) =
        some (prepareBinaryData (base64Decode content) (jget fields "path")) ∧
      (∀ k, k ≠ env.params.binaryPropertyName i →
        lookupKey ((fileGetNewItem env i item fields content).binary.getD []) k =
          lookupKey (item.binary.getD []) k) ∧
      base64Decode (prepareBinaryData (base64Decode content) (jget fields "path")).data =
        base64Decode content ∧
      (∀ (fullOperation : String) (done rest : List Item) (rd : List JVal)
          (log : List Request),
        done.length = i →
        runItems env fullOperation done (item :: rest) rd log =
          (log ++ [fileGetReq env i],
            Except.ok (done.reverse ++ fileGetNewItem env i item fields content :: rest)))) := by
  refine ⟨fun xs hnet => processOne_fileGetBin_err env i item xs hres hop hbin hnet, ?_⟩
  intro fields content hnet hc
  have hp := processOne_fileGetBin_ok env i item fields content hres hop hbin hnet hc
  refine ⟨hp, rfl, ?_, ?_, ?_, ?_⟩
  · simp [fileGetNewItem, lookupKey_setKey_self]
  · intro k hk
    simp [fileGetNewItem, lookupKey_setKey_ne _ _ hk]
  · exact base64_decode_encode _ (base64Decode_lt content)
  · intro fullOperation done rest rd log hlen
    subst hlen
    rw [runItems, hp]

/-- C1 witness: a concrete file:get binary run over an object response with
base64 content aGk= early-returns the item with the decoded attachment. -/
theorem c1_witness :
    processOne envFileGetBin 0 it0 =
      ([fileGetReq envFileGetBin 0],
        Except.ok (ItemStep.earlyRet (fileGetNewItem envFileGetBin 0 it0
          [("content", JVal.str "aGk="), ("path", JVal.str "f.txt")] "aGk="))) :=
  ((c1_file_get_binary envFileGetBin 0 it0 rfl rfl rfl).2
    [("content", JVal.str "aGk="), ("path", JVal.str "f.txt")] "aGk=" rfl rfl).1

/-- C9: when file:get with the binary flag succeeds for the first item, the
whole run returns immediately: the output is the item sequence with only that
item replaced, the remaining items are delivered unprocessed, and the request
log holds exactly the one request of that item, so no network requests are
issued for the later items. -/
theorem c9_early_return_ends_run (env : Env) (item : Item) (rest : List Item)
    (fields : List (String × JVal)) (content : String)
    (hres : env.params.resource 0 = "file") (hop : env.params.operation 0 = "get")
    (hbin : env.params.asBinaryProperty 0 = true)
    (hnet : env.net (fileGetReq env 0) = Except.ok (JVal.obj fields))
    (hc : jget fields "content" = JVal.str content) :
    execute env (item :: rest) =
      ([fileGetReq env 0],
        Except.ok (fileGetNewItem env 0 item fields content :: rest)) := by
  have hp := processOne_fileGetBin_ok env 0 item fields content hres hop hbin hnet hc
  simp only [execute]
  rw [runItems]
  simp only [List.length_nil]
  rw [hp]
  simp

/-- C9 witness: a two-item file:get binary run issues one request and returns
the replaced first item together with the untouched second item. -/
theorem c9_witness :
    execute envFileGetBin [it0, it0] =
      ([fileGetReq envFileGetBin 0],
        Except.ok [fileGetNewItem envFileGetBin 0 it0
          [("content", JVal.str "aGk="), ("path", JVal.str "f.txt")] "aGk=", it0]) :=
  c9_early_return_ends_run envFileGetBin it0 [it0]
    [("content", JVal.str "aGk="), ("path", JVal.str "f.txt")] "aGk=" rfl rfl rfl rfl rfl

/-! ### Paginated operations -/

theorem processOne_releaseGetAll_limited (env : Env) (i : Nat) (item : Item)
    (hres : env.params.resource 0 = "release") (hop : env.params.operation 0 = "getAll")
    (hra : env.params.returnAll 0 = false) :
    processOne env i item =
      ([releaseGetAllReq env i],
        Except.map ItemStep.resp (env.net (releaseGetAllReq env i))) := by
  simp only [processOne, routeRelease, githubApiRequest, hres, hop, hra]
  simp only [show ("release" ++ ":" ++ "getAll" : String) = "release:getAll" from rfl]
  rcases hnet : env.net (releaseGetAllReq env i) with e | v
  · simp [releaseGetAllReq] at hnet
    simp [hnet, releaseGetAllReq, setKey, Except.map]
  · simp [releaseGetAllReq] at hnet
    simp [hnet, releaseGetAllReq, setKey, Except.map]

theorem processOne_releaseGetAll_all (env : Env) (i : Nat) (item : Item)
    (hres : env.params.resource 0 = "release") (hop : env.params.operation 0 = "getAll")
    (hra : env.params.returnAll 0 = true) :
    processOne env i item =
      ((githubApiRequestAllItems env.net env.pageFuel "GET"
          ("/repos/" ++ env.params.owner i ++ "/" ++ env.params.repository i ++ "/releases")
          [] []).1,
        Except.map ItemStep.resp
          (githubApiRequestAllItems env.net env.pageFuel "GET"
            ("/repos/" ++ env.params.owner i ++ "/" ++ env.params.repository i ++ "/releases")
            [] []).2) := by
  simp only [processOne, routeRelease, githubApiRequest, hres, hop, hra]
  simp only [show ("release" ++ ":" ++ "getAll" : String) = "release:getAll" from rfl]
  rcases hall : githubApiRequestAllItems env.net env.pageFuel "GET"
      ("/repos/" ++ env.params.owner i ++ "/" ++ env.params.repository i ++ "/releases")
      [] [] with ⟨reqs, res⟩
  rcases res with e | v <;> simp [hall, Except.map]

theorem processOne_repoGetIssues_limited (env : Env) (i : Nat) (item : Item)
    (hres : env.params.resource 0 = "repository") (hop : env.params.operation 0 = "getIssues")
    (hra : env.params.returnAll 0 = false) :
    processOne env i item =
      ([repoGetIssuesReq env i],
        Except.map ItemStep.resp (env.net (repoGetIssuesReq env i))) := by
  simp only [processOne, routeRepository, githubApiRequest, hres, hop, hra]
  simp only [show ("repository" ++ ":" ++ "getIssues" : String) = "repository:getIssues" from rfl]
  rcases hnet : env.net (repoGetIssuesReq env i) with e | v
  · simp [repoGetIssuesReq] at hnet
    simp [hnet, repoGetIssuesReq, Except.map]
  · simp [repoGetIssuesReq] at hnet
    simp [hnet, repoGetIssuesReq, Except.map]

theorem processOne_repoGetIssues_all (env : Env) (i : Nat) (item : Item)
    (hres : env.params.resource 0 = "repository") (hop : env.params.operation 0 = "getIssues")
    (hra : env.params.returnAll 0 = true) :
    processOne env i item =
      ((githubApiRequestAllItems env.net env.pageFuel "GET"
          ("/repos/" ++ env.params.owner i ++ "/" ++ env.params.repository i ++ "/issues")
          [] (env.params.getRepositoryIssuesFilters i)).1,
        Except.map ItemStep.resp
          (githubApiRequestAllItems env.net env.pageFuel "GET"
            ("/repos/" ++ env.params.owner i ++ "/" ++ env.params.repository i ++ "/issues")
            [] (env.params.getRepositoryIssuesFilters i)).2) := by
  simp only [processOne, routeRepository, githubApiRequest, hres, hop, hra]
  simp only [show ("repository" ++ ":" ++ "getIssues" : String) = "repository:getIssues" from rfl]
  rcases hall : githubApiRequestAllItems env.net env.pageFuel "GET"
      ("/repos/" ++ env.params.owner i ++ "/" ++ env.params.repository i ++ "/issues")
      [] (env.params.getRepositoryIssuesFilters i) with ⟨reqs, res⟩
  rcases res with e | v <;> simp [hall, Except.map]

theorem processOne_reviewGetAll_limited (env : Env) (i : Nat) (item : Item)
    (hres : env.params.resource 0 = "review") (hop : env.params.operation 0 = "getAll")
    (hra : env.params.returnAll 0 = false) :
    processOne env i item =
      ([reviewGetAllReq env i],
        Except.map ItemStep.resp (env.net (reviewGetAllReq env i))) := by
  simp only [processOne, routeReview, githubApiRequest, hres, hop, hra]
  simp only [show ("review" ++ ":" ++ "getAll" : String) = "review:getAll" from rfl]
  rcases hnet : env.net (reviewGetAllReq env i) with e | v
  · simp [reviewGetAllReq] at hnet
    simp [hnet, reviewGetAllReq, setKey, Except.map]
  · simp [reviewGetAllReq] at hnet
    simp [hnet, reviewGetAllReq, setKey, Except.map]

theorem processOne_reviewGetAll_all (env : Env) (i : Nat) (item : Item)
    (hres : env.params.resource 0 = "review") (hop : env.params.operation 0 = "getAll")
    (hra : env.params.returnAll 0 = true) :
    processOne env i item =
      ((githubApiRequestAllItems env.net env.pageFuel "GET"
          ("/repos/" ++ env.params.owner i ++ "/" ++ env.params.repository i ++ "/pulls/" ++
            env.params.pullRequestNumber i ++ "/reviews")
          [] []).1,
        Except.map ItemStep.resp
          (githubApiRequestAllItems env.net env.pageFuel "GET"
            ("/repos/" ++ env.params.owner i ++ "/" ++ env.params.repository i ++ "/pulls/" ++
              env.params.pullRequestNumber i ++ "/reviews")
            [] []).2) := by
  simp only [processOne, routeReview, githubApiRequest, hres, hop, hra]
  simp only [show ("review" ++ ":" ++ "getAll" : String) = "review:getAll" from rfl]
  rcases hall : githubApiRequestAllItems env.net env.pageFuel "GET"
      ("/repos/" ++ env.params.owner i ++ "/" ++ env.params.repository i ++ "/pulls/" ++
        env.params.pullRequestNumber i ++ "/reviews")
      [] [] with ⟨reqs, res⟩
  rcases res with e | v <;> simp [hall, Except.map]

theorem processOne_userGetRepos_limited (env : Env) (i : Nat) (item : Item)
    (hres : env.params.resource 0 = "user") (hop : env.params.operation 0 = "getRepositories")
    (hra : env.params.returnAll 0 = false) :
    processOne env i item =
      ([userGetReposReq env i],
        Except.map ItemStep.resp (env.net (userGetReposReq env i))) := by
  simp only [processOne, routeUser, githubApiRequest, hres, hop, hra]
  simp only [show ("user" ++ ":" ++ "getRepositories" : String) = "user:getRepositories" from rfl]
  rcases hnet : env.net (userGetReposReq env i) with e | v
  · simp [userGetReposReq] at hnet
    simp [hnet, userGetReposReq, setKey, Except.map]
  · simp [userGetReposReq] at hnet
    simp [hnet, userGetReposReq, setKey, Except.map]

theorem processOne_userGetRepos_all (env : Env) (i : Nat) (item : Item)
    (hres : env.params.resource 0 = "user") (hop : env.params.operation 0 = "getRepositories")
    (hra : env.params.returnAll 0 = true) :
    processOne env i item =
      ((githubApiRequestAllItems env.net env.pageFuel "GET"
          ("/users/" ++ env.params.owner i ++ "/repos") [] []).1,
        Except.map ItemStep.resp
          (githubApiRequestAllItems env.net env.pageFuel "GET"
            ("/users/" ++ env.params.owner i ++ "/repos") [] []).2) := by
  simp only [processOne, routeUser, githubApiRequest, hres, hop, hra]
  simp only [show ("user" ++ ":" ++ "getRepositories" : String) = "user:getRepositories" from rfl]
  rcases hall : githubApiRequestAllItems env.net env.pageFuel "GET"
      ("/users/" ++ env.params.owner i ++ "/repos") [] [] with ⟨reqs, res⟩
  rcases res with e | v <;> simp [hall, Except.map]

/-- C3: for the four paginated operations with return-all false and a bounded
limit, exactly one HTTP request is issued per item, its query carries per_page
equal to the limit, and the response of that single request is what the item
uses; with return-all true the all-pages accumulation helper is invoked
instead of a single request. -/
theorem c3_pagination_modes (env : Env) (i : Nat) (item : Item) :
    (env.params.resource 0 = "release" → env.params.operation 0 = "getAll" →
      env.params.returnAll 0 = false →
      1 ≤ env.params.limit 0 → env.params.limit 0 ≤ 100 →
      processOne env i item =
        ([releaseGetAllReq env i],
          Except.map ItemStep.resp (env.net (releaseGetAllReq env i))) ∧
      lookupKey (releaseGetAllReq env i).qs "per_page" =
        some (JVal.num (env.params.limit 0))) ∧
    (env.params.resource 0 = "repository" → env.params.operation 0 = "getIssues" →
      env.params.returnAll 0 = false →
      1 ≤ env.params.limit 0 → env.params.limit 0 ≤ 100 →
      processOne env i item =
        ([repoGetIssuesReq env i],
          Except.map ItemStep.resp (env.net (repoGetIssuesReq env i))) ∧
      lookupKey (repoGetIssuesReq env i).qs "per_page" =
        some (JVal.num (env.params.limit 0))) ∧
    (env.params.resource 0 = "review" → env.params.operation 0 = "getAll" →
      env.params.returnAll 0 = false →
      1 ≤ env.params.limit 0 → env.params.limit 0 ≤ 100 →
      processOne env i item =
        ([reviewGetAllReq env i],
          Except.map ItemStep.resp (env.net (reviewGetAllReq env i))) ∧
      lookupKey (reviewGetAllReq env i).qs "per_page" =
        some (JVal.num (env.params.limit 0))) ∧
    (env.params.resource 0 = "user" → env.params.operation 0 = "getRepositories" →
      env.params.returnAll 0 = false →
      1 ≤ env.params.limit 0 → env.params.limit 0 ≤ 100 →
      processOne env i item =
        ([userGetReposReq env i],
          Except.map ItemStep.resp (env.net (userGetReposReq env i))) ∧
      lookupKey (userGetReposReq env i).qs "per_page" =
        some (JVal.num (env.params.limit 0))) ∧
    (env.params.resource 0 = "release" → env.params.operation 0 = "getAll" →
      env.params.returnAll 0 = true →
      processOne env i item =
        ((githubApiRequestAllItems env.net env.pageFuel "GET"
            ("/repos/" ++ env.params.owner i ++ "/" ++ env.params.repository i ++ "/releases")
            [] []).1,
          Except.map ItemStep.resp
            (githubApiRequestAllItems env.net env.pageFuel "GET"
              ("/repos/" ++ env.params.owner i ++ "/" ++ env.params.repository i ++ "/releases")
              [] []).2)) ∧
    (env.params.resource 0 = "repository" → env.params.operation 0 = "getIssues" →
      env.params.returnAll 0 = true →
      processOne env i item =
        ((githubApiRequestAllItems env.net env.pageFuel "GET"
            ("/repos/" ++ env.params.owner i ++ "/" ++ env.params.repository i ++ "/issues")
            [] (env.params.getRepositoryIssuesFilters i)).1,
          Except.map ItemStep.resp
            (githubApiRequestAllItems env.net env.pageFuel "GET"
              ("/repos/" ++ env.params.owner i ++ "/" ++ env.params.repository i ++ "/issues")
              [] (env.params.getRepositoryIssuesFilters i)).2)) ∧
    (env.params.resource 0 = "review" → env.params.operation 0 = "getAll" →
      env.params.returnAll 0 = true →
      processOne env i item =
        ((githubApiRequestAllItems env.net env.pageFuel "GET"
            ("/repos/" ++ env.params.owner i ++ "/" ++ env.params.repository i ++ "/pulls/" ++
              env.params.pullRequestNumber i ++ "/reviews")
            [] []).1,
          Except.map ItemStep.resp
            (githubApiRequestAllItems env.net env.pageFuel "GET"
              ("/repos/" ++ env.params.owner i ++ "/" ++ env.params.repository i ++ "/pulls/" ++
                env.params.pullRequestNumber i ++ "/reviews")
              [] []).2)) ∧
    (env.params.resource 0 = "user" → env.params.operation 0 = "getRepositories" →
      env.params.returnAll 0 = true →
      processOne env i item =
        ((githubApiRequestAllItems env.net env.pageFuel "GET"
            ("/users/" ++ env.params.owner i ++ "/repos") [] []).1,
          Except.map ItemStep.resp
            (githubApiRequestAllItems env.net env.pageFuel "GET"
              ("/users/" ++ env.params.owner i ++ "/repos") [] []).2)) := by
  refine ⟨?_, ?_, ?_, ?_, ?_, ?_, ?_, ?_⟩
  · intro hres hop hra _ _
    exact ⟨processOne_releaseGetAll_limited env i item hres hop hra, rfl⟩
  · intro hres hop hra _ _
    exact ⟨processOne_repoGetIssues_limited env i item hres hop hra,
      lookupKey_setKey_self _ _ _⟩
  · intro hres hop hra _ _
    exact ⟨processOne_reviewGetAll_limited env i item hres hop hra, rfl⟩
  · intro hres hop hra _ _
    exact ⟨processOne_userGetRepos_limited env i item hres hop hra, rfl⟩
  · exact fun hres hop hra => processOne_releaseGetAll_all env i item hres hop hra
  · exact fun hres hop hra => processOne_repoGetIssues_all env i item hres hop hra
  · exact fun hres hop hra => processOne_reviewGetAll_all env i item hres hop hra
  · exact fun hres hop hra => processOne_userGetRepos_all env i item hres hop hra

/-- C3 witness: a concrete release:getAll run with limit 50 issues exactly the
one request whose query carries per_page 50. -/
theorem c3_witness :
    processOne envReleaseAll 0 it0 =
      ([releaseGetAllReq envReleaseAll 0],
        Except.map ItemStep.resp (envReleaseAll.net (releaseGetAllReq envReleaseAll 0))) ∧
    lookupKey (releaseGetAllReq envReleaseAll 0).qs "per_page" = some (JVal.num 50) :=
  (c3_pagination_modes envReleaseAll 0 it0).1 rfl rfl rfl
    (by simp [envReleaseAll, baseParams]) (by simp [envReleaseAll, baseParams])

/-- C10: the returnAll and limit parameters are consulted only at item index
0, so replacing their values at every other index changes neither any item's
processing nor the whole run. -/
theorem c10_pagination_params_index0 (env : Env) (g : Nat → Bool) (l : Nat → Int)
    (hg : g 0 = env.params.returnAll 0) (hl : l 0 = env.params.limit 0) :
    (∀ (i : Nat) (item : Item),
      processOne { env with params := { env.params with returnAll := g, limit := l } } i item =
        processOne env i item) ∧
    (∀ items : List Item,
      execute { env with params := { env.params with returnAll := g, limit := l } } items =
        execute env items) := by
  obtain ⟨p, cof, net, fuel⟩ := env
  simp only at hg hl
  have hpo : ∀ (i : Nat) (item : Item),
      processOne ⟨{ p with returnAll := g, limit := l }, cof, net, fuel⟩ i item =
        processOne ⟨p, cof, net, fuel⟩ i item := by
    intro i item
    simp only [processOne, routeFile, routeIssue, routeRelease, routeRepository,
      routeReview, routeUser]
    rw [hg, hl]
  refine ⟨hpo, ?_⟩
  have hrun : ∀ (rest done : List Item) (rd : List JVal) (log : List Request) (f : String),
      runItems ⟨{ p with returnAll := g, limit := l }, cof, net, fuel⟩ f done rest rd log =
        runItems ⟨p, cof, net, fuel⟩ f done rest rd log := by
    intro rest
    induction rest with
    | nil => intro done rd log f; rfl
    | cons item rest ih =>
      intro done rd log f
      rw [runItems, runItems, hpo done.length item]
      rcases hp : processOne ⟨p, cof, net, fuel⟩ done.length item with ⟨reqs, res⟩
      rcases res with e | step
      · cases cof
        · rfl
        · rcases hs : responseShape f with _ | _ | _ <;> exact ih _ _ _ _
      · rcases step with v | ni
        · exact ih _ _ _ _
        · rfl
  intro items
  simp only [execute]
  exact hrun items [] [] [] _

/-- C10 witness: overriding returnAll and limit at index 1 of a concrete
release:getAll run leaves the two-item run unchanged. -/
theorem c10_witness :
    execute { envReleaseAll with params := { envReleaseAll.params with
        returnAll := fun n => decide (0 < n),
        limit := fun n => if n = 0 then 50 else 7 } } [it0, it0] =
      execute envReleaseAll [it0, it0] :=
  (c10_pagination_params_index0 envReleaseAll (fun n => decide (0 < n))
    (fun n => if n = 0 then 50 else 7) rfl rfl).2 [it0, it0]

/-! ### file:edit and file:delete SHA lookup -/

theorem processOne_fileEdit_ok (env : Env) (i : Nat) (item : Item)
    (sreqs : List Request) (sha : JVal)
    (hres : env.params.resource 0 = "file") (hop : env.params.operation 0 = "edit")
    (hbd : env.params.binaryData i = false)
    (hsha : getFileSha env.net (env.params.owner i) (env.params.repository i)
        (env.params.filePath i)
        (lookupKey (additionalParametersBody (env.params.additionalParameters i)) "branch") =
      (sreqs, Except.ok sha)) :
    processOne env i item =
      (sreqs ++ [fileEditReq env i sha],
        Except.map ItemStep.resp (env.net (fileEditReq env i sha))) := by
  simp only [processOne, routeFile, githubApiRequest, hres, hop, hbd]
  simp only [show ("file" ++ ":" ++ "edit" : String) = "file:edit" from rfl]
  rw [show (if ("file:edit" : String) = "user:invite" then "" else env.params.owner i) =
    env.params.owner i from rfl]
  rw [show (if ("file:edit" : String) = "user:getRepositories" ∨ ("file:edit" : String) = "user:invite"
      then "" else env.params.repository i) = env.params.repository i from rfl]
  rw [hsha]
  rcases hnet : env.net (fileEditReq env i sha) with e | v
  · simp [fileEditReq] at hnet
    simp [hnet, fileEditReq, Except.map]
  · simp [fileEditReq] at hnet
    simp [hnet, fileEditReq, Except.map]

theorem processOne_fileEdit_err (env : Env) (i : Nat) (item : Item)
    (sreqs : List Request) (e : String)
    (hres : env.params.resource 0 = "file") (hop : env.params.operation 0 = "edit")
    (hsha : getFileSha env.net (env.params.owner i) (env.params.repository i)
        (env.params.filePath i)
        (lookupKey (additionalParametersBody (env.params.additionalParameters i)) "branch") =
      (sreqs, Except.error e)) :
    processOne env i item = (sreqs, Except.error e) := by
  simp only [processOne, routeFile, githubApiRequest, hres, hop]
  simp only [show ("file" ++ ":" ++ "edit" : String) = "file:edit" from rfl]
  rw [show (if ("file:edit" : String) = "user:invite" then "" else env.params.owner i) =
    env.params.owner i from rfl]
  rw [show (if ("file:edit" : String) = "user:getRepositories" ∨ ("file:edit" : String) = "user:invite"
      then "" else env.params.repository i) = env.params.repository i from rfl]
  rw [hsha]
  rfl

theorem processOne_fileDelete_ok (env : Env) (i : Nat) (item : Item)
    (sreqs : List Request) (sha : JVal)
    (hres : env.params.resource 0 = "file") (hop : env.params.operation 0 = "delete")
    (hsha : getFileSha env.net (env.params.owner i) (env.params.repository i)
        (env.params.filePath i)
        (lookupKey (setKey (additionalParametersBody (env.params.additionalParameters i))
          "message" (JVal.str (env.params.commitMessage i))) "branch") =
      (sreqs, Except.ok sha)) :
    processOne env i item =
      (sreqs ++ [fileDeleteReq env i sha],
        Except.map ItemStep.resp (env.net (fileDeleteReq env i sha))) := by
  simp only [processOne, routeFile, githubApiRequest, hres, hop]
  simp only [show ("file" ++ ":" ++ "delete" : String) = "file:delete" from rfl]
  rw [show (if ("file:delete" : String) = "user:invite" then "" else env.params.owner i) =
    env.params.owner i from rfl]
  rw [show (if ("file:delete" : String) = "user:getRepositories" ∨
      ("file:delete" : String) = "user:invite"
      then "" else env.params.repository i) = env.params.repository i from rfl]
  rw [hsha]
  rcases hnet : env.net (fileDeleteReq env i sha) with e | v
  · simp [fileDeleteReq] at hnet
    simp [hnet, fileDeleteReq, Except.map]
  · simp [fileDeleteReq] at hnet
    simp [hnet, fileDeleteReq, Except.map]

theorem processOne_fileDelete_err (env : Env) (i : Nat) (item : Item)
    (sreqs : List Request) (e : String)
    (hres : env.params.resource 0 = "file") (hop : env.params.operation 0 = "delete")
    (hsha : getFileSha env.net (env.params.owner i) (env.params.repository i)
        (env.params.filePath i)
        (lookupKey (setKey (additionalParametersBody (env.params.additionalParameters i))
          "message" (JVal.str (env.params.commitMessage i))) "branch") =
      (sreqs, Except.error e)) :
    processOne env i item = (sreqs, Except.error e) := by
  simp only [processOne, routeFile, githubApiRequest, hres, hop]
  simp only [show ("file" ++ ":" ++ "delete" : String) = "file:delete" from rfl]
  rw [show (if ("file:delete" : String) = "user:invite" then "" else env.params.owner i) =
    env.params.owner i from rfl]
  rw [show (if ("file:delete" : String) = "user:getRepositories" ∨
      ("file:delete" : String) = "user:invite"
      then "" else env.params.repository i) = env.params.repository i from rfl]
  rw [hsha]
  rfl

theorem getFileSha_requests (net : Request → Except String JVal)
    (owner repository filePath : String) (br : Option JVal) :
    (getFileSha net owner repository filePath br).1 =
      [⟨"GET", "/repos/" ++ owner ++ "/" ++ repository ++ "/contents/" ++ encodeURI filePath,
        [],
        match br with
        | some b => [("ref", b)]
        | none => []⟩] := by
  unfold getFileSha
  rcases hnet : net ⟨"GET",
      "/repos/" ++ owner ++ "/" ++ repository ++ "/contents/" ++ encodeURI filePath, [],
      match br with
      | some b => [("ref", b)]
      | none => []⟩ with e | v
  · simp [hnet]
  · rcases v with _ | _ | b | n | s | xs | fields <;> simp [hnet] <;> split <;> rfl

/-- C4: file:edit and file:delete perform the SHA lookup (a GET of
contents/{path}, scoped to the supplied branch via the query) before the
mutating call; the mutating call's body includes the looked-up sha under the
sha key, and when the lookup fails the mutating call is never issued. -/
theorem c4_sha_lookup_before_mutation (env : Env) (i : Nat) (item : Item) :
    (∀ (sreqs : List Request) (sha : JVal),
      env.params.resource 0 = "file" → env.params.operation 0 = "edit" →
      env.params.binaryData i = false →
      getFileSha env.net (env.params.owner i) (env.params.repository i)
          (env.params.filePath i)
          (lookupKey (additionalParametersBody (env.params.additionalParameters i)) "branch") =
        (sreqs, Except.ok sha) →
      processOne env i item =
        (sreqs ++ [fileEditReq env i sha],
          Except.map ItemStep.resp (env.net (fileEditReq env i sha))) ∧
      (fileEditReq env i sha).method = "PUT" ∧
      lookupKey (fileEditReq env i sha).body "sha" = some sha) ∧
    (∀ (sreqs : List Request) (e : String),
      env.params.resource 0 = "file" → env.params.operation 0 = "edit" →
      getFileSha env.net (env.params.owner i) (env.params.repository i)
          (env.params.filePath i)
          (lookupKey (additionalParametersBody (env.params.additionalParameters i)) "branch") =
        (sreqs, Except.error e) →
      processOne env i item = (sreqs, Except.error e)) ∧
    (∀ (sreqs : List Request) (sha : JVal),
      env.params.resource 0 = "file" → env.params.operation 0 = "delete" →
      getFileSha env.net (env.params.owner i) (env.params.repository i)
          (env.params.filePath i)
          (lookupKey (setKey (additionalParametersBody (env.params.additionalParameters i))
            "message" (JVal.str (env.params.commitMessage i))) "branch") =
        (sreqs, Except.ok sha) →
      processOne env i item =
        (sreqs ++ [fileDeleteReq env i sha],
          Except.map ItemStep.resp (env.net (fileDeleteReq env i sha))) ∧
      (fileDeleteReq env i sha).method = "DELETE" ∧
      lookupKey (fileDeleteReq env i sha).body "sha" = some sha) ∧
    (∀ (sreqs : List Request) (e : String),
      env.params.resource 0 = "file" → env.params.operation 0 = "delete" →
      getFileSha env.net (env.params.owner i) (env.params.repository i)
          (env.params.filePath i)
          (lookupKey (setKey (additionalParametersBody (env.params.additionalParameters i))
            "message" (JVal.str (env.params.commitMessage i))) "branch") =
        (sreqs, Except.error e) →
      processOne env i item = (sreqs, Except.error e)) ∧
    (∀ (owner repository filePath : String) (br : Option JVal),
      (getFileSha env.net owner repository filePath br).1 =
        [⟨"GET", "/repos/" ++ owner ++ "/" ++ repository ++ "/contents/" ++ encodeURI filePath,
          [],
          match br with
          | some b => [("ref", b)]
          | none => []⟩]) := by
  refine ⟨?_, ?_, ?_, ?_, ?_⟩
  · intro sreqs sha hres hop hbd hsha
    refine ⟨processOne_fileEdit_ok env i item sreqs sha hres hop hbd hsha, rfl, ?_⟩
    simp [fileEditReq, lookupKey_setKey]
  · intro sreqs e hres hop hsha
    exact processOne_fileEdit_err env i item sreqs e hres hop hsha
  · intro sreqs sha hres hop hsha
    refine ⟨processOne_fileDelete_ok env i item sreqs sha hres hop hsha, rfl, ?_⟩
    simp [fileDeleteReq, lookupKey_setKey]
  · intro sreqs e hres hop hsha
    exact processOne_fileDelete_err env i item sreqs e hres hop hsha
  · intro owner repository filePath br
    exact getFileSha_requests env.net owner repository filePath br

/-- C4 witness: a concrete file:edit run whose lookup returns sha abc123
issues the GET lookup followed by the PUT whose body carries that sha. -/
theorem c4_witness :
    processOne envFileEdit 0 it0 =
      ((getFileSha envFileEdit.net "octo" "hello" "docs/README.md" none).1 ++
        [fileEditReq envFileEdit 0 (JVal.str "abc123")],
        Except.map ItemStep.resp
          (envFileEdit.net (fileEditReq envFileEdit 0 (JVal.str "abc123")))) ∧
    lookupKey (fileEditReq envFileEdit 0 (JVal.str "abc123")).body "sha" =
      some (JVal.str "abc123") := by
  have h := (c4_sha_lookup_before_mutation envFileEdit 0 it0).1
    (getFileSha envFileEdit.net "octo" "hello" "docs/README.md" none).1
    (JVal.str "abc123") rfl rfl rfl rfl
  exact ⟨h.1, h.2.2⟩

/-! ### review:create -/

theorem processOne_reviewCreate (env : Env) (i : Nat) (item : Item)
    (hres : env.params.resource 0 = "review") (hop : env.params.operation 0 = "create") :
    processOne env i item =
      ([reviewCreateReq env i],
        Except.map ItemStep.resp (env.net (reviewCreateReq env i))) := by
  simp only [processOne, routeReview, githubApiRequest, hres, hop]
  simp only [show ("review" ++ ":" ++ "create" : String) = "review:create" from rfl]
  rcases hnet : env.net (reviewCreateReq env i) with e | v
  · simp [reviewCreateReq, reviewCreateBody] at hnet
    simp [hnet, reviewCreateReq, reviewCreateBody, Except.map]
  · simp [reviewCreateReq, reviewCreateBody] at hnet
    simp [hnet, reviewCreateReq, reviewCreateBody, Except.map]

/-- C6: review:create upper-snake-cases the human-facing event parameter in
the body (requestChanges to REQUEST_CHANGES, approve to APPROVE, comment to
COMMENT, pending to PENDING), and the body text parameter is copied into the
request body exactly for REQUEST_CHANGES and COMMENT, not for APPROVE or
PENDING (whose bodies stay exactly the additionalFields plus the event). -/
theorem c6_review_event_conversion (env : Env) (i : Nat) (item : Item)
    (hres : env.params.resource 0 = "review") (hop : env.params.operation 0 = "create") :
    processOne env i item =
      ([reviewCreateReq env i],
        Except.map ItemStep.resp (env.net (reviewCreateReq env i))) ∧
    (env.params.event i = "requestChanges" →
      lookupKey (reviewCreateReq env i).body "event" = some (JVal.str "REQUEST_CHANGES") ∧
      lookupKey (reviewCreateReq env i).body "body" =
        some (JVal.str (env.params.bodyText i))) ∧
    (env.params.event i = "comment" →
      lookupKey (reviewCreateReq env i).body "event" = some (JVal.str "COMMENT") ∧
      lookupKey (reviewCreateReq env i).body "body" =
        some (JVal.str (env.params.bodyText i))) ∧
    (env.params.event i = "approve" →
      (reviewCreateReq env i).body =
        setKey (env.params.additionalFields i) "event" (JVal.str "APPROVE") ∧
      (lookupKey (env.params.additionalFields i) "body" = none →
        lookupKey (reviewCreateReq env i).body "body" = none)) ∧
    (env.params.event i = "pending" →
      (reviewCreateReq env i).body =
        setKey (env.params.additionalFields i) "event" (JVal.str "PENDING") ∧
      (lookupKey (env.params.additionalFields i) "body" = none →
        lookupKey (reviewCreateReq env i).body "body" = none)) := by
  refine ⟨processOne_reviewCreate env i item hres hop, ?_, ?_, ?_, ?_⟩
  · intro hev
    simp only [reviewCreateReq, reviewCreateBody, hev]
    simp only [show toUpperStr (snakeCase "requestChanges") = "REQUEST_CHANGES" from rfl]
    simp [jget, lookupKey_setKey]
  · intro hev
    simp only [reviewCreateReq, reviewCreateBody, hev]
    simp only [show toUpperStr (snakeCase "comment") = "COMMENT" from rfl]
    simp [jget, lookupKey_setKey]
  · intro hev
    simp only [reviewCreateReq, reviewCreateBody, hev]
    simp only [show toUpperStr (snakeCase "approve") = "APPROVE" from rfl]
    constructor
    · simp [jget, lookupKey_setKey]
    · intro hnb
      simp [jget, lookupKey_setKey, hnb]
  · intro hev
    simp only [reviewCreateReq, reviewCreateBody, hev]
    simp only [show toUpperStr (snakeCase "pending") = "PENDING" from rfl]
    constructor
    · simp [jget, lookupKey_setKey]
    · intro hnb
      simp [jget, lookupKey_setKey, hnb]

/-- C6 witness: a concrete review:create run with event requestChanges sends
event REQUEST_CHANGES and the body text. -/
theorem c6_witness :
    processOne envReviewCreate 0 it0 =
      ([reviewCreateReq envReviewCreate 0],
        Except.map ItemStep.resp (envReviewCreate.net (reviewCreateReq envReviewCreate 0))) ∧
    lookupKey (reviewCreateReq envReviewCreate 0).body "event" =
      some (JVal.str "REQUEST_CHANGES") ∧
    lookupKey (reviewCreateReq envReviewCreate 0).body "body" = some (JVal.str "text") := by
  have h := c6_review_event_conversion envReviewCreate 0 it0 rfl rfl
  exact ⟨h.1, (h.2.1 rfl).1, (h.2.1 rfl).2⟩

/-! ### issue:create and issue:edit -/

theorem processOne_issueCreate (env : Env) (i : Nat) (item : Item)
    (hres : env.params.resource 0 = "issue") (hop : env.params.operation 0 = "create") :
    processOne env i item =
      ([issueCreateReq env i],
        Except.map ItemStep.resp (env.net (issueCreateReq env i))) := by
  simp only [processOne, routeIssue, githubApiRequest, hres, hop]
  simp only [show ("issue" ++ ":" ++ "create" : String) = "issue:create" from rfl]
  rcases hnet : env.net (issueCreateReq env i) with e | v
  · simp [issueCreateReq, issueCreateBody] at hnet
    simp [hnet, issueCreateReq, issueCreateBody, Except.map]
  · simp [issueCreateReq, issueCreateBody] at hnet
    simp [hnet, issueCreateReq, issueCreateBody, Except.map]

theorem processOne_issueEdit_supplied (env : Env) (i : Nat) (item : Item)
    (ls as : List JVal)
    (hres : env.params.resource 0 = "issue") (hop : env.params.operation 0 = "edit")
    (hlab : jget (env.params.editFields i) "labels" = JVal.arr ls)
    (hass : jget (env.params.editFields i) "assignees" = JVal.arr as) :
    processOne env i item =
      ([⟨"PATCH",
          "/repos/" ++ env.params.owner i ++ "/" ++ env.params.repository i ++ "/issues/" ++
            env.params.issueNumber i,
          setKey (setKey (env.params.editFields i)
              "labels" (JVal.arr (ls.map (fun d => jgetV d "label"))))
            "assignees" (JVal.arr (as.map (fun d => jgetV d "assignee"))),
          []⟩],
        Except.map ItemStep.resp (env.net
          ⟨"PATCH",
            "/repos/" ++ env.params.owner i ++ "/" ++ env.params.repository i ++ "/issues/" ++
              env.params.issueNumber i,
            setKey (setKey (env.params.editFields i)
                "labels" (JVal.arr (ls.map (fun d => jgetV d "label"))))
              "assignees" (JVal.arr (as.map (fun d => jgetV d "assignee"))),
            []⟩)) := by
  have hass2 : jget (setKey (env.params.editFields i)
      "labels" (JVal.arr (ls.map (fun d => jgetV d "label")))) "assignees" = JVal.arr as := by
    rw [show jget (setKey (env.params.editFields i)
        "labels" (JVal.arr (ls.map (fun d => jgetV d "label")))) "assignees" =
      jget (env.params.editFields i) "assignees" from by
        simp [jget, lookupKey_setKey]]
    exact hass
  simp only [processOne, routeIssue, githubApiRequest, hres, hop]
  simp only [show ("issue" ++ ":" ++ "edit" : String) = "issue:edit" from rfl]
  rcases hnet : env.net ⟨"PATCH",
      "/repos/" ++ env.params.owner i ++ "/" ++ env.params.repository i ++ "/issues/" ++
        env.params.issueNumber i,
      setKey (setKey (env.params.editFields i)
          "labels" (JVal.arr (ls.map (fun d => jgetV d "label"))))
        "assignees" (JVal.arr (as.map (fun d => jgetV d "assignee"))),
      []⟩ with e | v
  · simp [hlab, hass2, hnet, Except.map]
  · simp [hlab, hass2, hnet, Except.map]

theorem processOne_issueEdit_absent (env : Env) (i : Nat) (item : Item)
    (hres : env.params.resource 0 = "issue") (hop : env.params.operation 0 = "edit")
    (hlab : jget (env.params.editFields i) "labels" = JVal.undef)
    (hass : jget (env.params.editFields i) "assignees" = JVal.undef) :
    processOne env i item =
      ([⟨"PATCH",
          "/repos/" ++ env.params.owner i ++ "/" ++ env.params.repository i ++ "/issues/" ++
            env.params.issueNumber i,
          env.params.editFields i, []⟩],
        Except.map ItemStep.resp (env.net
          ⟨"PATCH",
            "/repos/" ++ env.params.owner i ++ "/" ++ env.params.repository i ++ "/issues/" ++
              env.params.issueNumber i,
            env.params.editFields i, []⟩)) := by
  simp only [processOne, routeIssue, githubApiRequest, hres, hop]
  simp only [show ("issue" ++ ":" ++ "edit" : String) = "issue:edit" from rfl]
  rcases hnet : env.net ⟨"PATCH",
      "/repos/" ++ env.params.owner i ++ "/" ++ env.params.repository i ++ "/issues/" ++
        env.params.issueNumber i,
      env.params.editFields i, []⟩ with e | v
  · simp [hlab, hass, hnet, Except.map]
  · simp [hlab, hass, hnet, Except.map]

/-- C7: issue:create flattens the labels parameter, a list of objects each
with a label string, to the list of those strings in the request body, and
likewise the assignees parameter; issue:edit applies the same flattening to
labels and assignees exactly when those editFields keys were supplied, and
keys absent from editFields are absent from the PATCH body. -/
theorem c7_label_assignee_flattening (env : Env) (i : Nat) (item : Item) :
    (∀ ls ss : List String,
      env.params.resource 0 = "issue" → env.params.operation 0 = "create" →
      env.params.labels i = ls.map (fun s => [("label", JVal.str s)]) →
      env.params.assignees i = ss.map (fun s => [("assignee", JVal.str s)]) →
      processOne env i item =
        ([issueCreateReq env i],
          Except.map ItemStep.resp (env.net (issueCreateReq env i))) ∧
      lookupKey (issueCreateReq env i).body "labels" =
        some (JVal.arr (ls.map JVal.str)) ∧
      lookupKey (issueCreateReq env i).body "assignees" =
        some (JVal.arr (ss.map JVal.str))) ∧
    (∀ ls ss : List String,
      env.params.resource 0 = "issue" → env.params.operation 0 = "edit" →
      jget (env.params.editFields i) "labels" =
        JVal.arr (ls.map (fun s => JVal.obj [("label", JVal.str s)])) →
      jget (env.params.editFields i) "assignees" =
        JVal.arr (ss.map (fun s => JVal.obj [("assignee", JVal.str s)])) →
      processOne env i item =
        ([⟨"PATCH",
            "/repos/" ++ env.params.owner i ++ "/" ++ env.params.repository i ++ "/issues/" ++
              env.params.issueNumber i,
            setKey (setKey (env.params.editFields i) "labels" (JVal.arr (ls.map JVal.str)))
              "assignees" (JVal.arr (ss.map JVal.str)),
            []⟩],
          Except.map ItemStep.resp (env.net
            ⟨"PATCH",
              "/repos/" ++ env.params.owner i ++ "/" ++ env.params.repository i ++ "/issues/" ++
                env.params.issueNumber i,
              setKey (setKey (env.params.editFields i) "labels" (JVal.arr (ls.map JVal.str)))
                "assignees" (JVal.arr (ss.map JVal.str)),
              []⟩)) ∧
      (∀ k : String, lookupKey (env.params.editFields i) k = none →
        lookupKey (setKey (setKey (env.params.editFields i)
            "labels" (JVal.arr (ls.map JVal.str)))
          "assignees" (JVal.arr (ss.map JVal.str))) k = none)) ∧
    (env.params.resource 0 = "issue" → env.params.operation 0 = "edit" →
      jget (env.params.editFields i) "labels" = JVal.undef →
      jget (env.params.editFields i) "assignees" = JVal.undef →
      processOne env i item =
        ([⟨"PATCH",
            "/repos/" ++ env.params.owner i ++ "/" ++ env.params.repository i ++ "/issues/" ++
              env.params.issueNumber i,
            env.params.editFields i, []⟩],
          Except.map ItemStep.resp (env.net
            ⟨"PATCH",
              "/repos/" ++ env.params.owner i ++ "/" ++ env.params.repository i ++ "/issues/" ++
                env.params.issueNumber i,
              env.params.editFields i, []⟩))) := by
  refine ⟨?_, ?_, ?_⟩
  · intro ls ss hres hop hlabels hassignees
    refine ⟨processOne_issueCreate env i item hres hop, ?_, ?_⟩
    · simp [issueCreateReq, issueCreateBody, lookupKey_setKey, hlabels,
        List.map_map, Function.comp, jget, lookupKey]
    · simp [issueCreateReq, issueCreateBody, lookupKey_setKey, hassignees,
        List.map_map, Function.comp, jget, lookupKey]
  · intro ls ss hres hop hlab hass
    have hflat1 : (ls.map (fun s => JVal.obj [("label", JVal.str s)])).map
        (fun d => jgetV d "label") = ls.map JVal.str := by
      simp [List.map_map, Function.comp, jgetV, jget, lookupKey]
    have hflat2 : (ss.map (fun s => JVal.obj [("assignee", JVal.str s)])).map
        (fun d => jgetV d "assignee") = ss.map JVal.str := by
      simp [List.map_map, Function.comp, jgetV, jget, lookupKey]
    have hp := processOne_issueEdit_supplied env i item
      (ls.map (fun s => JVal.obj [("label", JVal.str s)]))
      (ss.map (fun s => JVal.obj [("assignee", JVal.str s)])) hres hop hlab hass
    rw [hflat1, hflat2] at hp
    refine ⟨hp, ?_⟩
    intro k hk
    by_cases hk1 : k = "labels"
    · subst hk1
      simp [jget, hk] at hlab
    · by_cases hk2 : k = "assignees"
      · subst hk2
        simp [jget, hk] at hass
      · simp [lookupKey_setKey, hk1, hk2, hk]
  · intro hres hop hlab hass
    exact processOne_issueEdit_absent env i item hres hop hlab hass

/-- C7 witness: a concrete issue:create run with labels bug and ui and
assignee octo sends the flattened string lists. -/
theorem c7_witness :
    processOne envIssueCreate 0 it0 =
      ([issueCreateReq envIssueCreate 0],
        Except.map ItemStep.resp (envIssueCreate.net (issueCreateReq envIssueCreate 0))) ∧
    lookupKey (issueCreateReq envIssueCreate 0).body "labels" =
      some (JVal.arr [JVal.str "bug", JVal.str "ui"]) ∧
    lookupKey (issueCreateReq envIssueCreate 0).body "assignees" =
      some (JVal.arr [JVal.str "octo"]) := by
  have h := (c7_label_assignee_flattening envIssueCreate 0 it0).1 ["bug", "ui"] ["octo"]
    rfl rfl rfl rfl
  simpa using h

/-! ### Router characterizations for the remaining operations -/

theorem processOne_fileCreate (env : Env) (i : Nat) (item : Item)
    (hres : env.params.resource 0 = "file") (hop : env.params.operation 0 = "create")
    (hbd : env.params.binaryData i = false) :
    processOne env i item =
      ([⟨"PUT",
          "/repos/" ++ env.params.owner i ++ "/" ++ env.params.repository i ++ "/contents/" ++
            encodeURI (env.params.filePath i),
          setKey (setKey (additionalParametersBody (env.params.additionalParameters i))
              "message" (JVal.str (env.params.commitMessage i)))
            "content" (JVal.str (base64Encode (strBytes (env.params.fileContent i)))),
          []⟩],
        Except.map ItemStep.resp (env.net
          ⟨"PUT",
            "/repos/" ++ env.params.owner i ++ "/" ++ env.params.repository i ++ "/contents/" ++
              encodeURI (env.params.filePath i),
            setKey (setKey (additionalParametersBody (env.params.additionalParameters i))
                "message" (JVal.str (env.params.commitMessage i)))
              "content" (JVal.str (base64Encode (strBytes (env.params.fileContent i)))),
            []⟩)) := by
  simp only [processOne, routeFile, githubApiRequest, hres, hop, hbd]
  simp only [show ("file" ++ ":" ++ "create" : String) = "file:create" from rfl]
  rcases hnet : env.net ⟨"PUT",
      "/repos/" ++ env.params.owner i ++ "/" ++ env.params.repository i ++ "/contents/" ++
        encodeURI (env.params.filePath i),
      setKey (setKey (additionalParametersBody (env.params.additionalParameters i))
          "message" (JVal.str (env.params.commitMessage i)))
        "content" (JVal.str (base64Encode (strBytes (env.params.fileContent i)))),
      []⟩ with e | v
  · simp [hnet, Except.map]
  · simp [hnet, Except.map]

theorem processOne_fileGet_plain (env : Env) (i : Nat) (item : Item)
    (hres : env.params.resource 0 = "file") (hop : env.params.operation 0 = "get")
    (hflag : env.params.asBinaryProperty i = false) :
    processOne env i item =
      ([fileGetReq env i],
        Except.map ItemStep.resp (env.net (fileGetReq env i))) := by
  simp only [processOne, routeFile, githubApiRequest, hres, hop, hflag]
  simp only [show ("file" ++ ":" ++ "get" : String) = "file:get" from rfl]
  rcases hnet : env.net (fileGetReq env i) with e | v
  · simp [fileGetReq] at hnet
    simp [hnet, fileGetReq, Except.map]
  · simp [fileGetReq] at hnet
    simp [hnet, fileGetReq, Except.map]

theorem processOne_fileList (env : Env) (i : Nat) (item : Item)
    (hres : env.params.resource 0 = "file") (hop : env.params.operation 0 = "list") :
    processOne env i item =
      ([fileGetReq env i],
        Except.map ItemStep.resp (env.net (fileGetReq env i))) := by
  simp only [processOne, routeFile, githubApiRequest, hres, hop]
  simp only [show ("file" ++ ":" ++ "list" : String) = "file:list" from rfl]
  rcases hnet : env.net (fileGetReq env i) with e | v
  · simp [fileGetReq] at hnet
    simp [hnet, fileGetReq, Except.map]
  · simp [fileGetReq] at hnet
    simp [hnet, fileGetReq, Except.map]

theorem processOne_issueCreateComment (env : Env) (i : Nat) (item : Item)
    (hres : env.params.resource 0 = "issue") (hop : env.params.operation 0 = "createComment") :
    processOne env i item =
      ([⟨"POST",
          "/repos/" ++ env.params.owner i ++ "/" ++ env.params.repository i ++ "/issues/" ++
            env.params.issueNumber i ++ "/comments",
          [("body", JVal.str (env.params.bodyText i))], []⟩],
        Except.map ItemStep.resp (env.net
          ⟨"POST",
            "/repos/" ++ env.params.owner i ++ "/" ++ env.params.repository i ++ "/issues/" ++
              env.params.issueNumber i ++ "/comments",
            [("body", JVal.str (env.params.bodyText i))], []⟩)) := by
  simp only [processOne, routeIssue, githubApiRequest, hres, hop]
  simp only [show ("issue" ++ ":" ++ "createComment" : String) = "issue:createComment" from rfl]
  rcases hnet : env.net ⟨"POST",
      "/repos/" ++ env.params.owner i ++ "/" ++ env.params.repository i ++ "/issues/" ++
        env.params.issueNumber i ++ "/comments",
      [("body", JVal.str (env.params.bodyText i))], []⟩ with e | v
  · simp [hnet, setKey, Except.map]
  · simp [hnet, setKey, Except.map]

theorem processOne_issueGet (env : Env) (i : Nat) (item : Item)
    (hres : env.params.resource 0 = "issue") (hop : env.params.operation 0 = "get") :
    processOne env i item =
      ([⟨"GET",
          "/repos/" ++ env.params.owner i ++ "/" ++ env.params.repository i ++ "/issues/" ++
            env.params.issueNumber i,
          [], []⟩],
        Except.map ItemStep.resp (env.net
          ⟨"GET",
            "/repos/" ++ env.params.owner i ++ "/" ++ env.params.repository i ++ "/issues/" ++
              env.params.issueNumber i,
            [], []⟩)) := by
  simp only [processOne, routeIssue, githubApiRequest, hres, hop]
  simp only [show ("issue" ++ ":" ++ "get" : String) = "issue:get" from rfl]
  rcases hnet : env.net ⟨"GET",
      "/repos/" ++ env.params.owner i ++ "/" ++ env.params.repository i ++ "/issues/" ++
        env.params.issueNumber i,
      [], []⟩ with e | v
  · simp [hnet, Except.map]
  · simp [hnet, Except.map]

theorem processOne_issueLock (env : Env) (i : Nat) (item : Item)
    (hres : env.params.resource 0 = "issue") (hop : env.params.operation 0 = "lock") :
    processOne env i item =
      ([⟨"PUT",
          "/repos/" ++ env.params.owner i ++ "/" ++ env.params.repository i ++ "/issues/" ++
            env.params.issueNumber i ++ "/lock",
          [], [("lock_reason", JVal.str (env.params.lockReason i))]⟩],
        Except.map ItemStep.resp (env.net
          ⟨"PUT",
            "/repos/" ++ env.params.owner i ++ "/" ++ env.params.repository i ++ "/issues/" ++
              env.params.issueNumber i ++ "/lock",
            [], [("lock_reason", JVal.str (env.params.lockReason i))]⟩)) := by
  simp only [processOne, routeIssue, githubApiRequest, hres, hop]
  simp only [show ("issue" ++ ":" ++ "lock" : String) = "issue:lock" from rfl]
  rcases hnet : env.net ⟨"PUT",
      "/repos/" ++ env.params.owner i ++ "/" ++ env.params.repository i ++ "/issues/" ++
        env.params.issueNumber i ++ "/lock",
      [], [("lock_reason", JVal.str (env.params.lockReason i))]⟩ with e | v
  · simp [hnet, setKey, Except.map]
  · simp [hnet, setKey, Except.map]

theorem processOne_releaseCreate (env : Env) (i : Nat) (item : Item)
    (hres : env.params.resource 0 = "release") (hop : env.params.operation 0 = "create") :
    processOne env i item =
      ([⟨"POST", "/repos/" ++ env.params.owner i ++ "/" ++ env.params.repository i ++ "/releases",
          setKey (env.params.additionalFields i) "tag_name"
            (JVal.str (env.params.releaseTag i)),
          []⟩],
        Except.map ItemStep.resp (env.net
          ⟨"POST", "/repos/" ++ env.params.owner i ++ "/" ++ env.params.repository i ++ "/releases",
            setKey (env.params.additionalFields i) "tag_name"
              (JVal.str (env.params.releaseTag i)),
            []⟩)) := by
  simp only [processOne, routeRelease, githubApiRequest, hres, hop]
  simp only [show ("release" ++ ":" ++ "create" : String) = "release:create" from rfl]
  rcases hnet : env.net ⟨"POST",
      "/repos/" ++ env.params.owner i ++ "/" ++ env.params.repository i ++ "/releases",
      setKey (env.params.additionalFields i) "tag_name" (JVal.str (env.params.releaseTag i)),
      []⟩ with e | v
  · simp [hnet, Except.map]
  · simp [hnet, Except.map]

theorem processOne_releaseDelete (env : Env) (i : Nat) (item : Item)
    (hres : env.params.resource 0 = "release") (hop : env.params.operation 0 = "delete") :
    processOne env i item =
      ([⟨"DELETE",
          "/repos/" ++ env.params.owner i ++ "/" ++ env.params.repository i ++ "/releases/" ++
            env.params.release_id i,
          [], []⟩],
        Except.map (fun _ => ItemStep.resp (JVal.obj [("success", JVal.bool true)]))
          (env.net
            ⟨"DELETE",
              "/repos/" ++ env.params.owner i ++ "/" ++ env.params.repository i ++ "/releases/" ++
                env.params.release_id i,
              [], []⟩)) := by
  simp only [processOne, routeRelease, githubApiRequest, hres, hop]
  simp only [show ("release" ++ ":" ++ "delete" : String) = "release:delete" from rfl]
  rcases hnet : env.net ⟨"DELETE",
      "/repos/" ++ env.params.owner i ++ "/" ++ env.params.repository i ++ "/releases/" ++
        env.params.release_id i,
      [], []⟩ with e | v
  · simp [hnet, Except.map]
  · simp [hnet, Except.map]

theorem processOne_releaseGet (env : Env) (i : Nat) (item : Item)
    (hres : env.params.resource 0 = "release") (hop : env.params.operation 0 = "get") :
    processOne env i item =
      ([⟨"GET",
          "/repos/" ++ env.params.owner i ++ "/" ++ env.params.repository i ++ "/releases/" ++
            env.params.release_id i,
          [], []⟩],
        Except.map ItemStep.resp (env.net
          ⟨"GET",
            "/repos/" ++ env.params.owner i ++ "/" ++ env.params.repository i ++ "/releases/" ++
              env.params.release_id i,
            [], []⟩)) := by
  simp only [processOne, routeRelease, githubApiRequest, hres, hop]
  simp only [show ("release" ++ ":" ++ "get" : String) = "release:get" from rfl]
  rcases hnet : env.net ⟨"GET",
      "/repos/" ++ env.params.owner i ++ "/" ++ env.params.repository i ++ "/releases/" ++
        env.params.release_id i,
      [], []⟩ with e | v
  · simp [hnet, Except.map]
  · simp [hnet, Except.map]

theorem processOne_releaseUpdate (env : Env) (i : Nat) (item : Item)
    (hres : env.params.resource 0 = "release") (hop : env.params.operation 0 = "update") :
    processOne env i item =
      ([⟨"PATCH",
          "/repos/" ++ env.params.owner i ++ "/" ++ env.params.repository i ++ "/releases/" ++
            env.params.release_id i,
          env.params.additionalFields i, []⟩],
        Except.map ItemStep.resp (env.net
          ⟨"PATCH",
            "/repos/" ++ env.params.owner i ++ "/" ++ env.params.repository i ++ "/releases/" ++
              env.params.release_id i,
            env.params.additionalFields i, []⟩)) := by
  simp only [processOne, routeRelease, githubApiRequest, hres, hop]
  simp only [show ("release" ++ ":" ++ "update" : String) = "release:update" from rfl]
  rcases hnet : env.net ⟨"PATCH",
      "/repos/" ++ env.params.owner i ++ "/" ++ env.params.repository i ++ "/releases/" ++
        env.params.release_id i,
      env.params.additionalFields i, []⟩ with e | v
  · simp [hnet, Except.map]
  · simp [hnet, Except.map]

theorem processOne_repoGet (env : Env) (i : Nat) (item : Item)
    (hres : env.params.resource 0 = "repository") (hop : env.params.operation 0 = "get") :
    processOne env i item =
      ([⟨"GET", "/repos/" ++ env.params.owner i ++ "/" ++ env.params.repository i, [], []⟩],
        Except.map ItemStep.resp (env.net
          ⟨"GET", "/repos/" ++ env.params.owner i ++ "/" ++ env.params.repository i, [], []⟩)) := by
  simp only [processOne, routeRepository, githubApiRequest, hres, hop]
  simp only [show ("repository" ++ ":" ++ "get" : String) = "repository:get" from rfl]
  rcases hnet : env.net ⟨"GET",
      "/repos/" ++ env.params.owner i ++ "/" ++ env.params.repository i, [], []⟩ with e | v
  · simp [hnet, Except.map]
  · simp [hnet, Except.map]

theorem processOne_repoGetLicense (env : Env) (i : Nat) (item : Item)
    (hres : env.params.resource 0 = "repository") (hop : env.params.operation 0 = "getLicense") :
    processOne env i item =
      ([⟨"GET",
          "/repos/" ++ env.params.owner i ++ "/" ++ env.params.repository i ++ "/license",
          [], []⟩],
        Except.map ItemStep.resp (env.net
          ⟨"GET",
            "/repos/" ++ env.params.owner i ++ "/" ++ env.params.repository i ++ "/license",
            [], []⟩)) := by
  simp only [processOne, routeRepository, githubApiRequest, hres, hop]
  simp only [show ("repository" ++ ":" ++ "getLicense" : String) = "repository:getLicense" from rfl]
  rcases hnet : env.net ⟨"GET",
      "/repos/" ++ env.params.owner i ++ "/" ++ env.params.repository i ++ "/license",
      [], []⟩ with e | v
  · simp [hnet, Except.map]
  · simp [hnet, Except.map]

theorem processOne_repoListPopularPaths (env : Env) (i : Nat) (item : Item)
    (hres : env.params.resource 0 = "repository")
    (hop : env.params.operation 0 = "listPopularPaths") :
    processOne env i item =
      ([⟨"GET",
          "/repos/" ++ env.params.owner i ++ "/" ++ env.params.repository i ++
            "/traffic/popular/paths",
          [], []⟩],
        Except.map ItemStep.resp (env.net
          ⟨"GET",
            "/repos/" ++ env.params.owner i ++ "/" ++ env.params.repository i ++
              "/traffic/popular/paths",
            [], []⟩)) := by
  simp only [processOne, routeRepository, githubApiRequest, hres, hop]
  simp only [show ("repository" ++ ":" ++ "listPopularPaths" : String) =
    "repository:listPopularPaths" from rfl]
  rcases hnet : env.net ⟨"GET",
      "/repos/" ++ env.params.owner i ++ "/" ++ env.params.repository i ++
        "/traffic/popular/paths",
      [], []⟩ with e | v
  · simp [hnet, Except.map]
  · simp [hnet, Except.map]

theorem processOne_repoListReferrers (env : Env) (i : Nat) (item : Item)
    (hres : env.params.resource 0 = "repository")
    (hop : env.params.operation 0 = "listReferrers") :
    processOne env i item =
      ([⟨"GET",
          "/repos/" ++ env.params.owner i ++ "/" ++ env.params.repository i ++
            "/traffic/popular/referrers",
          [], []⟩],
        Except.map ItemStep.resp (env.net
          ⟨"GET",
            "/repos/" ++ env.params.owner i ++ "/" ++ env.params.repository i ++
              "/traffic/popular/referrers",
            [], []⟩)) := by
  simp only [processOne, routeRepository, githubApiRequest, hres, hop]
  simp only [show ("repository" ++ ":" ++ "listReferrers" : String) =
    "repository:listReferrers" from rfl]
  rcases hnet : env.net ⟨"GET",
      "/repos/" ++ env.params.owner i ++ "/" ++ env.params.repository i ++
        "/traffic/popular/referrers",
      [], []⟩ with e | v
  · simp [hnet, Except.map]
  · simp [hnet, Except.map]

theorem processOne_reviewGet (env : Env) (i : Nat) (item : Item)
    (hres : env.params.resource 0 = "review") (hop : env.params.operation 0 = "get") :
    processOne env i item =
      ([⟨"GET",
          "/repos/" ++ env.params.owner i ++ "/" ++ env.params.repository i ++ "/pulls/" ++
            env.params.pullRequestNumber i ++ "/reviews/" ++ env.params.reviewId i,
          [], []⟩],
        Except.map ItemStep.resp (env.net
          ⟨"GET",
            "/repos/" ++ env.params.owner i ++ "/" ++ env.params.repository i ++ "/pulls/" ++
              env.params.pullRequestNumber i ++ "/reviews/" ++ env.params.reviewId i,
            [], []⟩)) := by
  simp only [processOne, routeReview, githubApiRequest, hres, hop]
  simp only [show ("review" ++ ":" ++ "get" : String) = "review:get" from rfl]
  rcases hnet : env.net ⟨"GET",
      "/repos/" ++ env.params.owner i ++ "/" ++ env.params.repository i ++ "/pulls/" ++
        env.params.pullRequestNumber i ++ "/reviews/" ++ env.params.reviewId i,
      [], []⟩ with e | v
  · simp [hnet, Except.map]
  · simp [hnet, Except.map]

theorem processOne_reviewUpdate (env : Env) (i : Nat) (item : Item)
    (hres : env.params.resource 0 = "review") (hop : env.params.operation 0 = "update") :
    processOne env i item =
      ([⟨"PUT",
          "/repos/" ++ env.params.owner i ++ "/" ++ env.params.repository i ++ "/pulls/" ++
            env.params.pullRequestNumber i ++ "/reviews/" ++ env.params.reviewId i,
          [("body", JVal.str (env.params.bodyText i))], []⟩],
        Except.map ItemStep.resp (env.net
          ⟨"PUT",
            "/repos/" ++ env.params.owner i ++ "/" ++ env.params.repository i ++ "/pulls/" ++
              env.params.pullRequestNumber i ++ "/reviews/" ++ env.params.reviewId i,
            [("body", JVal.str (env.params.bodyText i))], []⟩)) := by
  simp only [processOne, routeReview, githubApiRequest, hres, hop]
  simp only [show ("review" ++ ":" ++ "update" : String) = "review:update" from rfl]
  rcases hnet : env.net ⟨"PUT",
      "/repos/" ++ env.params.owner i ++ "/" ++ env.params.repository i ++ "/pulls/" ++
        env.params.pullRequestNumber i ++ "/reviews/" ++ env.params.reviewId i,
      [("body", JVal.str (env.params.bodyText i))], []⟩ with e | v
  · simp [hnet, setKey, Except.map]
  · simp [hnet, setKey, Except.map]

theorem processOne_userInvite (env : Env) (i : Nat) (item : Item)
    (hres : env.params.resource 0 = "user") (hop : env.params.operation 0 = "invite") :
    processOne env i item =
      ([⟨"POST", "/orgs/" ++ env.params.organization i ++ "/invitations",
          [("email", JVal.str (env.params.email i))], []⟩],
        Except.map ItemStep.resp (env.net
          ⟨"POST", "/orgs/" ++ env.params.organization i ++ "/invitations",
            [("email", JVal.str (env.params.email i))], []⟩)) := by
  simp only [processOne, routeUser, githubApiRequest, hres, hop]
  simp only [show ("user" ++ ":" ++ "invite" : String) = "user:invite" from rfl]
  rcases hnet : env.net ⟨"POST", "/orgs/" ++ env.params.organization i ++ "/invitations",
      [("email", JVal.str (env.params.email i))], []⟩ with e | v
  · simp [hnet, setKey, Except.map]
  · simp [hnet, setKey, Except.map]

/-- C8 counterexample: the claim asserts that interpolated path segments are
properly escaped when they contain reserved path characters.  A repository:get
run whose owner is a?b produces the endpoint /repos/a?b/r with the reserved
question mark verbatim, and even the encodeURI applied to filePath leaves the
reserved question mark unescaped, so no such escaping happens. -/
theorem c8_counterexample :
    (processOne envReservedOwner 0 it0).1 = [⟨"GET", "/repos/a?b/r", [], []⟩] ∧
    ('?' ∈ "/repos/a?b/r".data) ∧
    encodeURI "a?b" = "a?b" := by
  refine ⟨rfl, by decide, rfl⟩

/-- C8 (amended): for every (resource, operation) pair of spec section 4.1 the
router issues requests with exactly the method and endpoint template shown,
with path segments interpolated verbatim from the supplied owner, repository
and identifiers; only filePath is passed through encodeURI, which leaves
reserved URI characters unescaped, and no other escaping is applied. -/
theorem c8_router_templates (env : Env) (i : Nat) (item : Item) :
    (env.params.resource 0 = "file" → env.params.operation 0 = "create" →
      env.params.binaryData i = false →
      (processOne env i item).1 =
        [⟨"PUT",
          "/repos/" ++ env.params.owner i ++ "/" ++ env.params.repository i ++ "/contents/" ++
            encodeURI (env.params.filePath i),
          setKey (setKey (additionalParametersBody (env.params.additionalParameters i))
              "message" (JVal.str (env.params.commitMessage i)))
            "content" (JVal.str (base64Encode (strBytes (env.params.fileContent i)))),
          []⟩]) ∧
    (∀ (sreqs : List Request) (sha : JVal),
      env.params.resource 0 = "file" → env.params.operation 0 = "edit" →
      env.params.binaryData i = false →
      getFileSha env.net (env.params.owner i) (env.params.repository i)
          (env.params.filePath i)
          (lookupKey (additionalParametersBody (env.params.additionalParameters i)) "branch") =
        (sreqs, Except.ok sha) →
      (processOne env i item).1 = sreqs ++ [fileEditReq env i sha]) ∧
    (∀ (sreqs : List Request) (sha : JVal),
      env.params.resource 0 = "file" → env.params.operation 0 = "delete" →
      getFileSha env.net (env.params.owner i) (env.params.repository i)
          (env.params.filePath i)
          (lookupKey (setKey (additionalParametersBody (env.params.additionalParameters i))
            "message" (JVal.str (env.params.commitMessage i))) "branch") =
        (sreqs, Except.ok sha) →
      (processOne env i item).1 = sreqs ++ [fileDeleteReq env i sha]) ∧
    (env.params.resource 0 = "file" → env.params.operation 0 = "get" →
      env.params.asBinaryProperty i = false →
      (processOne env i item).1 = [fileGetReq env i]) ∧
    (env.params.resource 0 = "file" → env.params.operation 0 = "list" →
      (processOne env i item).1 = [fileGetReq env i]) ∧
    (env.params.resource 0 = "issue" → env.params.operation 0 = "create" →
      (processOne env i item).1 = [issueCreateReq env i]) ∧
    (env.params.resource 0 = "issue" → env.params.operation 0 = "createComment" →
      (processOne env i item).1 =
        [⟨"POST",
          "/repos/" ++ env.params.owner i ++ "/" ++ env.params.repository i ++ "/issues/" ++
            env.params.issueNumber i ++ "/comments",
          [("body", JVal.str (env.params.bodyText i))], []⟩]) ∧
    (env.params.resource 0 = "issue" → env.params.operation 0 = "edit" →
      jget (env.params.editFields i) "labels" = JVal.undef →
      jget (env.params.editFields i) "assignees" = JVal.undef →
      (processOne env i item).1 =
        [⟨"PATCH",
          "/repos/" ++ env.params.owner i ++ "/" ++ env.params.repository i ++ "/issues/" ++
            env.params.issueNumber i,
          env.params.editFields i, []⟩]) ∧
    (env.params.resource 0 = "issue" → env.params.operation 0 = "get" →
      (processOne env i item).1 =
        [⟨"GET",
          "/repos/" ++ env.params.owner i ++ "/" ++ env.params.repository i ++ "/issues/" ++
            env.params.issueNumber i,
          [], []⟩]) ∧
    (env.params.resource 0 = "issue" → env.params.operation 0 = "lock" →
      (processOne env i item).1 =
        [⟨"PUT",
          "/repos/" ++ env.params.owner i ++ "/" ++ env.params.repository i ++ "/issues/" ++
            env.params.issueNumber i ++ "/lock",
          [], [("lock_reason", JVal.str (env.params.lockReason i))]⟩]) ∧
    (env.params.resource 0 = "release" → env.params.operation 0 = "create" →
      (processOne env i item).1 =
        [⟨"POST", "/repos/" ++ env.params.owner i ++ "/" ++ env.params.repository i ++ "/releases",
          setKey (env.params.additionalFields i) "tag_name" (JVal.str (env.params.releaseTag i)),
          []⟩]) ∧
    (env.params.resource 0 = "release" → env.params.operation 0 = "delete" →
      (processOne env i item).1 =
        [⟨"DELETE",
          "/repos/" ++ env.params.owner i ++ "/" ++ env.params.repository i ++ "/releases/" ++
            env.params.release_id i,
          [], []⟩]) ∧
    (env.params.resource 0 = "release" → env.params.operation 0 = "get" →
      (processOne env i item).1 =
        [⟨"GET",
          "/repos/" ++ env.params.owner i ++ "/" ++ env.params.repository i ++ "/releases/" ++
            env.params.release_id i,
          [], []⟩]) ∧
    (env.params.resource 0 = "release" → env.params.operation 0 = "getAll" →
      env.params.returnAll 0 = false →
      (processOne env i item).1 = [releaseGetAllReq env i]) ∧
    (env.params.resource 0 = "release" → env.params.operation 0 = "update" →
      (processOne env i item).1 =
        [⟨"PATCH",
          "/repos/" ++ env.params.owner i ++ "/" ++ env.params.repository i ++ "/releases/" ++
            env.params.release_id i,
          env.params.additionalFields i, []⟩]) ∧
    (env.params.resource 0 = "repository" → env.params.operation 0 = "get" →
      (processOne env i item).1 =
        [⟨"GET", "/repos/" ++ env.params.owner i ++ "/" ++ env.params.repository i, [], []⟩]) ∧
    (env.params.resource 0 = "repository" → env.params.operation 0 = "getLicense" →
      (processOne env i item).1 =
        [⟨"GET", "/repos/" ++ env.params.owner i ++ "/" ++ env.params.repository i ++ "/license",
          [], []⟩]) ∧
    (env.params.resource 0 = "repository" → env.params.operation 0 = "getIssues" →
      env.params.returnAll 0 = false →
      (processOne env i item).1 = [repoGetIssuesReq env i]) ∧
    (env.params.resource 0 = "repository" → env.params.operation 0 = "listPopularPaths" →
      (processOne env i item).1 =
        [⟨"GET",
          "/repos/" ++ env.params.owner i ++ "/" ++ env.params.repository i ++
            "/traffic/popular/paths",
          [], []⟩]) ∧
    (env.params.resource 0 = "repository" → env.params.operation 0 = "listReferrers" →
      (processOne env i item).1 =
        [⟨"GET",
          "/repos/" ++ env.params.owner i ++ "/" ++ env.params.repository i ++
            "/traffic/popular/referrers",
          [], []⟩]) ∧
    (env.params.resource 0 = "review" → env.params.operation 0 = "get" →
      (processOne env i item).1 =
        [⟨"GET",
          "/repos/" ++ env.params.owner i ++ "/" ++ env.params.repository i ++ "/pulls/" ++
            env.params.pullRequestNumber i ++ "/reviews/" ++ env.params.reviewId i,
          [], []⟩]) ∧
    (env.params.resource 0 = "review" → env.params.operation 0 = "getAll" →
      env.params.returnAll 0 = false →
      (processOne env i item).1 = [reviewGetAllReq env i]) ∧
    (env.params.resource 0 = "review" → env.params.operation 0 = "create" →
      (processOne env i item).1 = [reviewCreateReq env i]) ∧
    (env.params.resource 0 = "review" → env.params.operation 0 = "update" →
      (processOne env i item).1 =
        [⟨"PUT",
          "/repos/" ++ env.params.owner i ++ "/" ++ env.params.repository i ++ "/pulls/" ++
            env.params.pullRequestNumber i ++ "/reviews/" ++ env.params.reviewId i,
          [("body", JVal.str (env.params.bodyText i))], []⟩]) ∧
    (env.params.resource 0 = "user" → env.params.operation 0 = "getRepositories" →
      env.params.returnAll 0 = false →
      (processOne env i item).1 = [userGetReposReq env i]) ∧
    (env.params.resource 0 = "user" → env.params.operation 0 = "invite" →
      (processOne env i item).1 =
        [⟨"POST", "/orgs/" ++ env.params.organization i ++ "/invitations",
          [("email", JVal.str (env.params.email i))], []⟩]) := by
  refine ⟨?_, ?_, ?_, ?_, ?_, ?_, ?_, ?_, ?_, ?_, ?_, ?_, ?_, ?_, ?_, ?_, ?_, ?_, ?_, ?_,
    ?_, ?_, ?_, ?_, ?_, ?_⟩
  · intro h1 h2 h3; rw [processOne_fileCreate env i item h1 h2 h3]
  · intro sreqs sha h1 h2 h3 h4; rw [processOne_fileEdit_ok env i item sreqs sha h1 h2 h3 h4]
  · intro sreqs sha h1 h2 h3; rw [processOne_fileDelete_ok env i item sreqs sha h1 h2 h3]
  · intro h1 h2 h3; rw [processOne_fileGet_plain env i item h1 h2 h3]
  · intro h1 h2; rw [processOne_fileList env i item h1 h2]
  · intro h1 h2; rw [processOne_issueCreate env i item h1 h2]
  · intro h1 h2; rw [processOne_issueCreateComment env i item h1 h2]
  · intro h1 h2 h3 h4; rw [processOne_issueEdit_absent env i item h1 h2 h3 h4]
  · intro h1 h2; rw [processOne_issueGet env i item h1 h2]
  · intro h1 h2; rw [processOne_issueLock env i item h1 h2]
  · intro h1 h2; rw [processOne_releaseCreate env i item h1 h2]
  · intro h1 h2; rw [processOne_releaseDelete env i item h1 h2]
  · intro h1 h2; rw [processOne_releaseGet env i item h1 h2]
  · intro h1 h2 h3; rw [processOne_releaseGetAll_limited env i item h1 h2 h3]
  · intro h1 h2; rw [processOne_releaseUpdate env i item h1 h2]
  · intro h1 h2; rw [processOne_repoGet env i item h1 h2]
  · intro h1 h2; rw [processOne_repoGetLicense env i item h1 h2]
  · intro h1 h2 h3; rw [processOne_repoGetIssues_limited env i item h1 h2 h3]
  · intro h1 h2; rw [processOne_repoListPopularPaths env i item h1 h2]
  · intro h1 h2; rw [processOne_repoListReferrers env i item h1 h2]
  · intro h1 h2; rw [processOne_reviewGet env i item h1 h2]
  · intro h1 h2 h3; rw [processOne_reviewGetAll_limited env i item h1 h2 h3]
  · intro h1 h2; rw [processOne_reviewCreate env i item h1 h2]
  · intro h1 h2; rw [processOne_reviewUpdate env i item h1 h2]
  · intro h1 h2 h3; rw [processOne_userGetRepos_limited env i item h1 h2 h3]
  · intro h1 h2; rw [processOne_userInvite env i item h1 h2]

/-- C8 witness: a concrete repository:get run issues exactly GET
/repos/octo/hello. -/
theorem c8_witness :
    (processOne envRepoGet 0 it0).1 = [⟨"GET", "/repos/octo/hello", [], []⟩] := by
  have h := c8_router_templates envRepoGet 0 it0
  exact h.2.2.2.2.2.2.2.2.2.2.2.2.2.2.2.1 rfl rfl

end GithubNode
